import Mathlib

/-!
Verification of the conversation flow interpreter of `shop-update-chatbot`
(`src/conversation/flow-controller.ts`, the current revision that processes
`MessageInput = {type: text|image, content, mimeType?}`), together with the
session store (`src/conversation/memory.ts`) and the step/type definitions
(`src/conversation/types.ts`).

Modelling conventions:
* JavaScript objects used as string-keyed maps (`Record<string, ...>`,
  `session.context`, the `Map` inside the memory manager) are modelled as
  association lists with replace-on-set semantics; only lookups, key
  presence and deletion are ever observed.
* JavaScript numbers are modelled by `JSNum`: `NaN`, signed `Infinity`, or
  an exact rational.  Every predicate the controller applies to a parsed
  number (`isNaN`, `> 0`, `>= 0`, `Number.isInteger`) is insensitive to
  binary64 rounding of a decimal literal, so the exact-rational idealisation
  agrees with the code on all of them.  The string rendering of a number
  (`jsNumToString`) is likewise an exact-decimal idealisation; no theorem
  below observes it.
* `Date.now()` is modelled by a single instant `Env.now` for the whole turn,
  and `randomUUID()` by the environment-supplied string `Env.uuid`.
* Asynchronous collaborator calls (`WooCommerceClient`) are modelled by an
  environment-supplied behaviour returning `Except WooFailure _`; a thrown
  exception of the collaborator enters the interpreter only as that
  `Except.error` value, and all interpreter functions are total, which
  embeds the fact that `process` never propagates an exception.
-/

namespace Shop

/-! ## Association-list maps (JS object semantics) -/

/-- Lookup in a string-keyed JS object. -/
def alGet {α : Type} (l : List (String × α)) (k : String) : Option α :=
  (l.find? (fun p => p.1 = k)).map (fun p => p.2)

/-- `obj[k] = v`: replace the binding if the key is present, append
otherwise (JS object keys are unique, so replacing the first occurrence is
the same as replacing the occurrence). -/
def alSet {α : Type} : List (String × α) → String → α → List (String × α)
  | [], k, v => [(k, v)]
  | p :: ps, k, v => if p.1 = k then (k, v) :: ps else p :: alSet ps k v

/-- `delete obj[k]`. -/
def alDel {α : Type} (l : List (String × α)) (k : String) : List (String × α) :=
  l.filter (fun p => ¬ p.1 = k)

/-! ## Structural string helpers

Core `String` functions such as `String.toLower`, `String.trim` and
`String.splitOn` are not kernel-reducible, so the JS string operations the
controller uses are given equivalent structural implementations on the
underlying character lists.  `toLowerCase` is modelled on the ASCII range,
which covers every string the controller compares case-insensitively
(step/option identifiers, keywords such as `stop`, trigger codes). -/

/-- Whitespace trimmed/skipped by JS (`trim`, `parseFloat`, `parseInt`);
ASCII part of the JS WhiteSpace/LineTerminator classes. -/
def jsIsWs (c : Char) : Bool :=
  c = ' ' || c = '\t' || c = '\n' || c = '\r' || c = '\x0b' || c = '\x0c'

def jsCharToLower (c : Char) : Char :=
  if 'A' ≤ c && c ≤ 'Z' then Char.ofNat (c.toNat + 32) else c

/-- JS `String.prototype.toLowerCase` (ASCII). -/
def jsToLower (s : String) : String :=
  String.mk (s.data.map jsCharToLower)

/-- JS `String.prototype.trim`. -/
def jsTrim (s : String) : String :=
  String.mk (((s.data.dropWhile jsIsWs).reverse.dropWhile jsIsWs).reverse)

/-- `trim().toLowerCase()`, the normalisation the controller applies to
user-entered text before comparisons. -/
def jsNormalize (s : String) : String :=
  jsToLower (jsTrim s)

def listStartsWith : List Char → List Char → Bool
  | [], _ => true
  | _ :: _, [] => false
  | c :: cs, d :: ds => c = d && listStartsWith cs ds

/-- Split at the first occurrence of `c` (JS `indexOf` + two `substring`s);
`none` when `c` does not occur. -/
def splitFirst (c : Char) : List Char → Option (List Char × List Char)
  | [] => none
  | d :: ds =>
    if d = c then some ([], ds)
    else (splitFirst c ds).map (fun p => (d :: p.1, p.2))

/-- JS `String.prototype.split` on a single-character separator. -/
def splitOnChar (c : Char) (s : String) : List String :=
  let rec go : List Char → List Char → List String
    | acc, [] => [String.mk acc.reverse]
    | acc, d :: ds => if d = c then String.mk acc.reverse :: go [] ds else go (d :: acc) ds
  go [] s.data

/-- JS `Array.prototype.join` / template-literal concatenation with a
separator. -/
def strIntercalate (sep : String) : List String → String
  | [] => ""
  | [s] => s
  | s :: rest => s ++ sep ++ strIntercalate sep rest

def replaceFirstAux (pat sub : List Char) : List Char → List Char
  | [] => []
  | c :: cs =>
    if listStartsWith pat (c :: cs) then sub ++ (c :: cs).drop pat.length
    else c :: replaceFirstAux pat sub cs

/-- JS `String.prototype.replace` with a string pattern: first occurrence only. -/
def replaceFirst (s pat sub : String) : String :=
  String.mk (replaceFirstAux pat.data sub.data s.data)

def digitChar (d : ℕ) : Char := Char.ofNat (48 + d)

def natToDigitsAux : ℕ → ℕ → List Char
  | 0, _ => []
  | fuel + 1, n =>
    if n < 10 then [digitChar n]
    else natToDigitsAux fuel (n / 10) ++ [digitChar (n % 10)]

/-- Decimal rendering of a natural number (kernel-reducible `toString`). -/
def natToString (n : ℕ) : String := String.mk (natToDigitsAux (n + 1) n)

def intToString (i : ℤ) : String :=
  if i < 0 then "-" ++ natToString i.natAbs else natToString i.natAbs

/-! ## JavaScript number parsing (`parseFloat`, `parseInt`) -/

/-- An unreduced rational `num / den` with `den > 0` (every value built
below has a power of ten as denominator).  Structural equality on `JSRat`
is only ever used to say that a stored field is the very value produced by
the code path under discussion; it never models the JS `==` on numbers. -/
structure JSRat where
  num : ℤ
  den : ℕ
deriving DecidableEq

/-- A JavaScript number as observed by the controller: `NaN`, `±Infinity`,
or a finite value (idealised as an exact rational, which agrees with
binary64 on every predicate the controller applies: `isNaN`, `> 0`,
`>= 0`, `Number.isInteger`). -/
inductive JSNum where
  | nan : JSNum
  | inf (neg : Bool) : JSNum
  | num (q : JSRat) : JSNum
deriving DecidableEq

/-- The JS integer `n` as a `JSNum`. -/
def jsInt (n : ℤ) : JSNum := JSNum.num ⟨n, 1⟩

def digitVal (c : Char) : Option ℕ :=
  if c.isDigit then some (c.toNat - 48) else none

/-- Take the leading run of decimal digits. -/
def takeDigits : List Char → (List ℕ × List Char)
  | [] => ([], [])
  | c :: cs =>
    match digitVal c with
    | some d =>
      let r := takeDigits cs
      (d :: r.1, r.2)
    | none => ([], c :: cs)

def digitsToNat (ds : List ℕ) : ℕ :=
  ds.foldl (fun a d => 10 * a + d) 0

/-- Leading whitespace skipped by `parseFloat`/`parseInt`. -/
def skipWs (cs : List Char) : List Char :=
  cs.dropWhile jsIsWs

/-- Optional sign; returns `true` when negative. -/
def readSign : List Char → (Bool × List Char)
  | '+' :: cs => (false, cs)
  | '-' :: cs => (true, cs)
  | cs => (false, cs)

/-- JavaScript `parseInt(s, 10)`: longest decimal-digit run after optional
whitespace and sign; `NaN` when there is no digit.  (For inputs beyond
2^53 binary64 rounds the value; the rounded value is still a non-negative
integer exactly when the exact one is, which is all the controller tests.) -/
def jsParseInt (s : String) : JSNum :=
  let cs := skipWs s.data
  let sgn := readSign cs
  let ds := takeDigits sgn.2
  if ds.1.isEmpty then JSNum.nan
  else jsInt ((if sgn.1 then -1 else 1) * (digitsToNat ds.1 : ℤ))

/-- JavaScript `parseFloat(s)`: longest valid decimal-literal run after
optional whitespace and sign (`Infinity`, integer digits, optional
fraction, optional exponent); `NaN` when no mantissa digit is consumed. -/
def jsParseFloat (s : String) : JSNum :=
  let cs := skipWs s.data
  let sgn := readSign cs
  if listStartsWith "Infinity".data sgn.2 then JSNum.inf sgn.1
  else
    let ip := takeDigits sgn.2
    let fp :=
      match ip.2 with
      | '.' :: rest => takeDigits rest
      | _ => ([], ip.2)
    if ip.1.isEmpty && fp.1.isEmpty then JSNum.nan
    else
      let mantNum : ℤ :=
        (digitsToNat ip.1 : ℤ) * (10 : ℤ) ^ fp.1.length + (digitsToNat fp.1 : ℤ)
      let signedNum := (if sgn.1 then -1 else 1) * mantNum
      let expVal : ℤ :=
        match fp.2 with
        | c :: rest =>
          if c = 'e' || c = 'E' then
            let esgn := readSign rest
            let eds := takeDigits esgn.2
            if eds.1.isEmpty then 0
            else (if esgn.1 then -1 else 1) * (digitsToNat eds.1 : ℤ)
          else 0
        | [] => 0
      if 0 ≤ expVal then
        JSNum.num ⟨signedNum * (10 : ℤ) ^ expVal.toNat, (10 : ℕ) ^ fp.1.length⟩
      else
        JSNum.num ⟨signedNum, (10 : ℕ) ^ fp.1.length * (10 : ℕ) ^ (-expVal).toNat⟩

def jsIsNaN : JSNum → Bool
  | JSNum.nan => true
  | _ => false

/-- JS `n > 0` (false on `NaN`; denominators are positive by construction). -/
def jsGtZeroB : JSNum → Bool
  | JSNum.nan => false
  | JSNum.inf neg => !neg
  | JSNum.num q => decide (0 < q.num)

/-- JS `n >= 0` (false on `NaN`). -/
def jsGeZeroB : JSNum → Bool
  | JSNum.nan => false
  | JSNum.inf neg => !neg
  | JSNum.num q => decide (0 ≤ q.num)

/-- JS `Number.isInteger`. -/
def jsIsIntegerB : JSNum → Bool
  | JSNum.num q => decide (q.num % (q.den : ℤ) = 0)
  | _ => false

def padZeros (s : String) (k : ℕ) : String :=
  String.mk (List.replicate (k - s.length) '0') ++ s

def stripTrailingZeros (s : String) : String :=
  String.mk ((s.data.reverse.dropWhile (fun c => c = '0')).reverse)

/-- Exact-decimal idealisation of JS number-to-string (used only inside
rendered strings that no theorem below inspects); denominators are powers
of ten by construction, and `denPow` recovers the exponent. -/
def denPow (den : ℕ) : ℕ := (natToString den).length - 1

def jsNumToString : JSNum → String
  | JSNum.nan => "NaN"
  | JSNum.inf neg => if neg then "-Infinity" else "Infinity"
  | JSNum.num q =>
    let sgn := if q.num < 0 then "-" else ""
    if q.den = 1 then sgn ++ natToString q.num.natAbs
    else
      let k := denPow q.den
      let intPart := q.num.natAbs / q.den
      let fracPart := q.num.natAbs % q.den
      let fracStr := stripTrailingZeros (padZeros (natToString fracPart) k)
      if fracStr = "" then sgn ++ natToString intPart
      else sgn ++ natToString intPart ++ "." ++ fracStr

/-- JS string truthiness on an optional string: `undefined` and `""` are falsy. -/
def optTruthy : Option String → Option String
  | some s => if s = "" then none else some s
  | none => none

/-! ## Flow definition data model (`src/conversation/types.ts`) -/

/-- `StepOption` of `types.ts`. -/
structure StepOption where
  id : String
  label : String
  aliases : List String
deriving DecidableEq

/-- `StepTransition` of `types.ts` (also the shape of `TriggerStep.onMatch`). -/
structure StepTransition where
  nextStep : String
  messageKey : Option String := none
deriving DecidableEq

/-- `TriggerStep.onNoMatch`. -/
structure OnNoMatch where
  handled : Bool
deriving DecidableEq

/-- `ChoiceStep.onInvalid`. -/
structure OnInvalid where
  messageKey : String
  nextStep : String
deriving DecidableEq

structure TriggerStep where
  onMatch : StepTransition
  onNoMatch : OnNoMatch
deriving DecidableEq

structure ChoiceStep where
  responseType : String
  messageKey : String
  options : List StepOption
  transitions : List (String × StepTransition)
  onInvalid : OnInvalid
deriving DecidableEq

structure InputStep where
  messageKey : String
  contextKey : String
  nextStep : String
deriving DecidableEq

/-- `ImageInputStep`: fields exactly as the controller reads them
(`messageKey`, `contextKey`, `nextStep`, `optional`, `skipKeyword?`),
matching §3 of the design (`ImageInput{promptKey, contextKey, nextStep,
optional:bool, skipKeyword?}`). -/
structure ImageInputStep where
  messageKey : String
  contextKey : String
  nextStep : String
  optional : Bool
  skipKeyword : Option String := none
deriving DecidableEq

structure ActionStep where
  action : String
  nextStep : String
deriving DecidableEq

structure TerminalStep where
  messageKey : Option String := none
deriving DecidableEq

/-- The tagged union `Step` of `types.ts`; the constructor plays the role of
the `type` discriminator string. -/
inductive Step where
  | trigger (s : TriggerStep) : Step
  | choice (s : ChoiceStep) : Step
  | input (s : InputStep) : Step
  | imageInput (s : ImageInputStep) : Step
  | action (s : ActionStep) : Step
  | terminal (s : TerminalStep) : Step
deriving DecidableEq

structure FlowDefinition where
  id : String
  initialStep : String
  sessionTimeoutMs : ℕ
  steps : List (String × Step)
deriving DecidableEq

/-- `flow.steps[stepId]`. -/
def flowStep (flow : FlowDefinition) (stepId : String) : Option Step :=
  alGet flow.steps stepId

/-! ## Session context and product data -/

/-- Staged product record (`ProductData` in `flow-controller.ts`). -/
structure ProductData where
  name : Option String := none
  price : Option JSNum := none
  stock : Option JSNum := none
  description : Option String := none
  sku : Option String := none
deriving DecidableEq

/-- `ProductImageData` in `flow-controller.ts`. -/
structure ProductImageData where
  url : String
  mimeType : Option String := none
deriving DecidableEq

/-- A value stored in the free-form `session.context` bag.  The controller
only ever stores raw strings (generic input steps), a staged product
record, or a staged image reference. -/
inductive CtxValue where
  | str (s : String) : CtxValue
  | product (p : ProductData) : CtxValue
  | image (i : ProductImageData) : CtxValue
deriving DecidableEq

def Context : Type := List (String × CtxValue)

instance : DecidableEq Context := by
  unfold Context; infer_instance

def ctxGet (ctx : Context) (k : String) : Option CtxValue := alGet ctx k

def ctxSet (ctx : Context) (k : String) (v : CtxValue) : Context := alSet ctx k v

def ctxDelete (ctx : Context) (k : String) : Context := alDel ctx k

/-- `session.context.productData as ProductData | undefined`, as observed by
`executeAddProduct`: a stored non-record value carries none of the product
fields and behaves as an incomplete record there, so it is mapped to `none`. -/
def ctxProduct? (ctx : Context) : Option ProductData :=
  match ctxGet ctx "productData" with
  | some (CtxValue.product p) => some p
  | _ => none

/-- `(session.context.productData as ProductData) || {}` in
`processInputStep`: absent or non-record values contribute no fields. -/
def ctxProductOrEmpty (ctx : Context) : ProductData :=
  match ctxGet ctx "productData" with
  | some (CtxValue.product p) => p
  | _ => {}

/-- `session.context.productImage as ProductImageData | undefined`: only the
`url` property is ever read (`productImage?.url`), which is `undefined` on a
stored non-image value, so such a value is mapped to `none`. -/
def ctxImage? (ctx : Context) : Option ProductImageData :=
  match ctxGet ctx "productImage" with
  | some (CtxValue.image i) => some i
  | _ => none

/-! ## Sessions and the in-memory session store (`memory.ts`) -/

structure Session where
  chatId : String
  currentStep : String
  context : Context
  createdAt : ℕ
  updatedAt : ℕ
  expiresAt : ℕ
deriving DecidableEq

/-- State of `createInMemoryManager(timeoutMs)`. -/
structure Memory where
  timeoutMs : ℕ
  sessions : List (String × Session)
deriving DecidableEq

def memLookup (mem : Memory) (chatId : String) : Option Session :=
  alGet mem.sessions chatId

/-- `isExpired`: `Date.now() > session.expiresAt`. -/
def isExpired (now : ℕ) (session : Session) : Bool :=
  decide (now > session.expiresAt)

/-- `get`, with its lazy eviction of an expired entry; returns the possibly
shrunk store alongside the result. -/
def memGet (now : ℕ) (mem : Memory) (chatId : String) : Option Session × Memory :=
  match memLookup mem chatId with
  | none => (none, mem)
  | some session =>
    if isExpired now session then
      (none, { mem with sessions := alDel mem.sessions chatId })
    else
      (some session, mem)

/-- `set`: refreshes `updatedAt`/`expiresAt` and stores the session. -/
def memSet (now : ℕ) (mem : Memory) (chatId : String) (session : Session) : Memory :=
  { mem with
    sessions := alSet mem.sessions chatId
      { session with updatedAt := now, expiresAt := now + mem.timeoutMs } }

def memDelete (mem : Memory) (chatId : String) : Memory :=
  { mem with sessions := alDel mem.sessions chatId }

/-- `createSession`: fresh session with empty context, not yet stored. -/
def memCreateSession (now : ℕ) (mem : Memory) (chatId : String)
    (initialStep : String) : Session :=
  { chatId := chatId
    currentStep := initialStep
    context := ([] : Context)
    createdAt := now
    updatedAt := now
    expiresAt := now + mem.timeoutMs }

/-! ## Messages, collaborator client, interpreter input/output types -/

inductive MsgType where
  | text : MsgType
  | image : MsgType
deriving DecidableEq

/-- `MessageInput` of `flow-controller.ts`. -/
structure MessageInput where
  type : MsgType
  content : String
  mimeType : Option String := none
deriving DecidableEq

structure FlowButtonOption where
  buttonId : String
  buttonText : String
deriving DecidableEq

structure FlowButtons where
  body : String
  options : List FlowButtonOption
  header : Option String := none
  footer : Option String := none
deriving DecidableEq

structure FlowResult where
  handled : Bool
  response : Option String := none
  preMessage : Option String := none
  buttons : Option FlowButtons := none
  sessionEnded : Option Bool := none
deriving DecidableEq

/-- `WooCommerceErrorCode` (`errors.ts`): the union is read off the
exhaustive `errorCodeToMessageKey` record in the controller. -/
inductive WooErrorCode where
  | network_error : WooErrorCode
  | unauthorized : WooErrorCode
  | forbidden : WooErrorCode
  | not_found : WooErrorCode
  | duplicate_sku : WooErrorCode
  | invalid_data : WooErrorCode
  | image_upload_error : WooErrorCode
  | server_error : WooErrorCode
  | unknown : WooErrorCode
deriving DecidableEq

/-- A value thrown by a collaborator call: a `WooCommerceError` carrying its
`errorCode`, or any other thrown value. -/
inductive WooFailure where
  | wooError (code : WooErrorCode) : WooFailure
  | other : WooFailure
deriving DecidableEq

/-- `WooProduct` (`woocommerce/types.ts`), plus the `permalink` field the
controller reads from a created product. -/
structure WooProduct where
  id : ℕ
  name : String
  slug : String
  price : String
  regular_price : String
  sale_price : String
  stock_status : String
  stock_quantity : Option JSNum
  status : String
  description : String
  short_description : String
  sku : String
  permalink : String
deriving DecidableEq

structure WooImage where
  src : String
  name : Option String := none
deriving DecidableEq

/-- The argument the controller builds for `wooCommerce.createProduct`. -/
structure CreateProductInput where
  name : String
  regular_price : String
  stock_quantity : JSNum
  description : Option String := none
  sku : Option String := none
  images : Option (List WooImage) := none
deriving DecidableEq

/-- Behaviour of the collaborator `WooCommerceClient` during one turn: the
outcome of `getProducts(perPage)` and of `createProduct(input)`. -/
structure WooClient where
  getProducts : ℕ → Except WooFailure (List WooProduct)
  createProduct : CreateProductInput → Except WooFailure WooProduct

/-- The dependencies captured by `createFlowController`, plus the ambient
effects of one turn (`Date.now()`, `randomUUID()`). -/
structure Env where
  flow : FlowDefinition
  messages : List (String × String)
  triggerCode : Option String := none
  woo : Option WooClient := none
  now : ℕ := 0
  uuid : String := "00000000-0000-4000-8000-000000000000"

/-! ## The flow controller (`flow-controller.ts`) -/

/-- `getMessage`: message lookup with a visible placeholder on a missing key. -/
def getMessage (env : Env) (key : String) : String :=
  (alGet env.messages key).getD ("[Missing message: " ++ key ++ "]")

/-- `errorCodeToMessageKey`. -/
def errorCodeToMessageKey : WooErrorCode → String
  | WooErrorCode.network_error => "error_network"
  | WooErrorCode.unauthorized => "error_unauthorized"
  | WooErrorCode.forbidden => "error_forbidden"
  | WooErrorCode.not_found => "error_not_found"
  | WooErrorCode.duplicate_sku => "error_duplicate_sku"
  | WooErrorCode.invalid_data => "error_invalid_data"
  | WooErrorCode.image_upload_error => "error_image_upload"
  | WooErrorCode.server_error => "error_server"
  | WooErrorCode.unknown => "error_unknown"

/-- `getErrorMessage`. -/
def getErrorMessage (env : Env) : WooFailure → String
  | WooFailure.wooError code => getMessage env (errorCodeToMessageKey code)
  | WooFailure.other => getMessage env "error_unknown"

/-- `buildButtonsFromChoice`. -/
def buildButtonsFromChoice (env : Env) (step : ChoiceStep) : FlowButtons :=
  { body := getMessage env step.messageKey
    options := step.options.map (fun opt =>
      { buttonId := opt.id, buttonText := opt.label }) }

/-- `isChoiceStep` (type guard on a possibly absent step). -/
def isChoiceStep : Option Step → Bool
  | some (Step.choice _) => true
  | _ => false

/-- `isTriggerMatch`: non-text never matches; an absent (or empty, hence
falsy) trigger code makes every text message match. -/
def isTriggerMatch (env : Env) (message : MessageInput) : Bool :=
  if message.type ≠ MsgType.text then false
  else
    match optTruthy env.triggerCode with
    | none => true
    | some code => jsNormalize message.content = jsToLower code

/-- `matchChoiceOption`: the input is trimmed and lowercased; each option in
declaration order is tried, first against its raw `id`, then against each
alias lowercased. -/
def matchChoiceOption (step : ChoiceStep) (input : String) : Option String :=
  let normalizedInput := jsNormalize input
  step.options.findSome? (fun option =>
    if option.id = normalizedInput then some option.id
    else if option.aliases.any (fun a => jsToLower a = normalizedInput) then
      some option.id
    else none)

/-- The JS guard `nextStep && 'messageKey' in nextStep && nextStep.messageKey`:
which step variants carry a truthy `messageKey` property. -/
def stepMessageKey? : Option Step → Option String
  | some (Step.choice s) => optTruthy (some s.messageKey)
  | some (Step.input s) => optTruthy (some s.messageKey)
  | some (Step.imageInput s) => optTruthy (some s.messageKey)
  | some (Step.terminal s) => optTruthy s.messageKey
  | _ => none

/-- `parseInputFields`: split on newlines, split each line at the first
colon, trim both parts, lowercase the key, drop empty values. -/
def parseInputFields (input : String) : List (String × String) :=
  (splitOnChar '\n' input).foldl (fun fields line =>
    match splitFirst ':' line.data with
    | none => fields
    | some kv =>
      let k := jsNormalize (String.mk kv.1)
      let v := jsTrim (String.mk kv.2)
      if v = "" then fields else alSet fields k v) []

/-- `validateAndMergeProduct`. -/
def validateAndMergeProduct (env : Env) (existingData : ProductData)
    (newFields : List (String × String)) : ProductData × List String :=
  let product := existingData
  let errors : List String := []
  let (product, errors) :=
    match alGet newFields "name" with
    | none => (product, errors)
    | some v =>
      if v.length > 0 then ({ product with name := some v }, errors)
      else (product, errors ++ [getMessage env "validation_error_name"])
  let (product, errors) :=
    match alGet newFields "price" with
    | none => (product, errors)
    | some v =>
      let priceNum := jsParseFloat v
      if !jsIsNaN priceNum && jsGtZeroB priceNum then
        ({ product with price := some priceNum }, errors)
      else (product, errors ++ [getMessage env "validation_error_price"])
  let (product, errors) :=
    match alGet newFields "stock" with
    | none => (product, errors)
    | some v =>
      let stockNum := jsParseInt v
      if !jsIsNaN stockNum && jsGeZeroB stockNum && jsIsIntegerB stockNum then
        ({ product with stock := some stockNum }, errors)
      else (product, errors ++ [getMessage env "validation_error_stock"])
  let product :=
    match alGet newFields "description" with
    | none => product
    | some v => { product with description := some v }
  (product, errors)

/-- `isProductComplete`. -/
def isProductComplete (product : ProductData) : Bool :=
  product.name.isSome && product.price.isSome && product.stock.isSome

/-- `buildMissingFieldsPrompt` (JS truthiness: an empty `name`/`description`
string counts as absent in the current-values block). -/
def buildMissingFieldsPrompt (env : Env) (product : ProductData)
    (errors : List String) : String :=
  let errParts :=
    if errors.isEmpty then ([] : List String)
    else ["⚠️ " ++ strIntercalate "\n⚠️ " errors]
  let currentValues : List String :=
    (match optTruthy product.name with
     | some n => ["✓ Name: " ++ n]
     | none => []) ++
    (match product.price with
     | some p => ["✓ Price: " ++ jsNumToString p]
     | none => []) ++
    (match product.stock with
     | some s => ["✓ Stock: " ++ jsNumToString s]
     | none => []) ++
    (match optTruthy product.description with
     | some d => ["✓ Description: " ++ d]
     | none => [])
  let curParts :=
    if currentValues.isEmpty then ([] : List String)
    else [replaceFirst (getMessage env "add_product_current_values")
            "{current_values}" (strIntercalate "\n" currentValues)]
  let missingFields : List String :=
    (if (optTruthy product.name).isSome then [] else ["Name: Product Name"]) ++
    (if product.price.isSome then [] else ["Price: 29.99"]) ++
    (if product.stock.isSome then [] else ["Stock: 10"])
  let missingParts :=
    if missingFields.isEmpty then ([] : List String)
    else [replaceFirst (getMessage env "add_product_missing_fields")
            "{missing_fields}" (strIntercalate "\n" missingFields)]
  strIntercalate "\n\n" (errParts ++ curParts ++ missingParts)

/-- `executeListProducts`. -/
def executeListProducts (env : Env) : String :=
  match env.woo with
  | none => "[WooCommerce not configured]"
  | some woo =>
    match woo.getProducts 20 with
    | Except.ok products =>
      if products.length = 0 then "No products found in your store."
      else
        let productList := strIntercalate "\n" (products.enum.map (fun ip =>
          natToString (ip.1 + 1) ++ ". " ++ ip.2.name ++ " - " ++ ip.2.price ++
            " (" ++ ip.2.stock_status ++ ")"))
        "📦 *Products (" ++ natToString products.length ++ "):*\n\n" ++ productList
    | Except.error err =>
      getMessage env "list_products_error" ++ "\n\n" ++ getErrorMessage env err

/-- `executeAddProduct`: returns the result text together with the session,
whose `context` it mutates (the caller stores it afterwards). -/
def executeAddProduct (env : Env) (session : Session) : String × Session :=
  match ctxProduct? session.context with
  | none => ("[Product data incomplete]", session)
  | some productData =>
    if !isProductComplete productData then ("[Product data incomplete]", session)
    else
      match env.woo with
      | none => ("[WooCommerce not configured]", session)
      | some woo =>
        let productImage := ctxImage? session.context
        let productData := { productData with sku := some env.uuid }
        let session :=
          { session with
            context := ctxSet session.context "productData" (CtxValue.product productData) }
        let createInput : CreateProductInput :=
          { name := productData.name.getD ""
            regular_price := jsNumToString (productData.price.getD JSNum.nan)
            stock_quantity := productData.stock.getD JSNum.nan
            description := productData.description
            sku := productData.sku
            images :=
              match productImage with
              | some img =>
                if img.url = "" then none
                else some [{ src := img.url, name := productData.name }]
              | none => none }
        match woo.createProduct createInput with
        | Except.ok createdProduct =>
          let session :=
            { session with
              context := ctxDelete (ctxDelete session.context "productData") "productImage" }
          let template := getMessage env "add_product_received"
          (replaceFirst (replaceFirst template "{name}" createdProduct.name)
            "{permalink}" createdProduct.permalink, session)
        | Except.error err =>
          (getMessage env "add_product_error" ++ "\n\n" ++ getErrorMessage env err,
            session)

/-- `processActionStep`: runs the action, advances the session to
`step.nextStep`, stores it, and renders the next step's prompt with the
action's result. -/
def processActionStep (env : Env) (mem : Memory) (chatId : String)
    (session : Session) (step : ActionStep) : FlowResult × Memory :=
  let ar :=
    if step.action = "listProducts" then (executeListProducts env, session)
    else if step.action = "addProduct" then executeAddProduct env session
    else ("[Action: " ++ step.action ++ "]", session)
  let actionResult := ar.1
  let session := { ar.2 with currentStep := step.nextStep }
  let mem := memSet env.now mem chatId session
  match flowStep env.flow step.nextStep with
  | some (Step.choice c) =>
    ({ handled := true
       preMessage := some actionResult
       buttons := some (buildButtonsFromChoice env c) }, mem)
  | other =>
    match stepMessageKey? other with
    | some key =>
      ({ handled := true
         response := some (actionResult ++ "\n\n" ++ getMessage env key) }, mem)
    | none => ({ handled := true, response := some actionResult }, mem)

/-- `processTriggerStep`. -/
def processTriggerStep (env : Env) (mem : Memory) (chatId : String)
    (message : MessageInput) (step : TriggerStep) : FlowResult × Memory :=
  if !isTriggerMatch env message then
    ({ handled := step.onNoMatch.handled }, mem)
  else
    let session := memCreateSession env.now mem chatId step.onMatch.nextStep
    let mem := memSet env.now mem chatId session
    let nextStep := flowStep env.flow step.onMatch.nextStep
    let welcomeMessage := (optTruthy step.onMatch.messageKey).map (getMessage env)
    match nextStep with
    | some (Step.choice c) =>
      let buttons := buildButtonsFromChoice env c
      let buttons :=
        match optTruthy welcomeMessage with
        | some w => { buttons with header := some w }
        | none => buttons
      ({ handled := true, buttons := some buttons }, mem)
    | other =>
      let responseMessages :=
        (match optTruthy welcomeMessage with
         | some w => [w]
         | none => []) ++
        (match stepMessageKey? other with
         | some key => [getMessage env key]
         | none => [])
      ({ handled := true, response := some (strIntercalate "\n\n" responseMessages) },
        mem)

/-- `processChoiceStep`. -/
def processChoiceStep (env : Env) (mem : Memory) (chatId : String)
    (message : MessageInput) (session : Session) (step : ChoiceStep) :
    FlowResult × Memory :=
  if message.type ≠ MsgType.text then
    match flowStep env.flow step.onInvalid.nextStep with
    | some (Step.choice c) =>
      ({ handled := true
         buttons := some { (buildButtonsFromChoice env c) with
           header := some (getMessage env step.onInvalid.messageKey) } }, mem)
    | _ =>
      ({ handled := true, response := some (getMessage env step.onInvalid.messageKey) },
        mem)
  else
    match matchChoiceOption step message.content with
    | none =>
      let session := { session with currentStep := step.onInvalid.nextStep }
      let mem := memSet env.now mem chatId session
      match flowStep env.flow step.onInvalid.nextStep with
      | some (Step.choice c) =>
        ({ handled := true
           buttons := some { (buildButtonsFromChoice env c) with
             header := some (getMessage env step.onInvalid.messageKey) } }, mem)
      | _ =>
        ({ handled := true
           response := some (getMessage env step.onInvalid.messageKey) }, mem)
    | some matchedOption =>
      match alGet step.transitions matchedOption with
      | none =>
        ({ handled := true
           response := some (getMessage env step.onInvalid.messageKey) }, mem)
      | some transition =>
        let session := { session with currentStep := transition.nextStep }
        let mem := memSet env.now mem chatId session
        match flowStep env.flow transition.nextStep with
        | some (Step.action a) => processActionStep env mem chatId session a
        | some (Step.input i) =>
          let responseMessages :=
            (match optTruthy transition.messageKey with
             | some k => [getMessage env k]
             | none => []) ++ [getMessage env i.messageKey]
          ({ handled := true
             response := some (strIntercalate "\n\n" responseMessages) }, mem)
        | some (Step.choice c) =>
          let buttons := buildButtonsFromChoice env c
          let buttons :=
            match optTruthy transition.messageKey with
            | some k => { buttons with header := some (getMessage env k) }
            | none => buttons
          ({ handled := true, buttons := some buttons }, mem)
        | other =>
          let responseMessages :=
            (match optTruthy transition.messageKey with
             | some k => [getMessage env k]
             | none => []) ++
            (match stepMessageKey? other with
             | some key => [getMessage env key]
             | none => [])
          ({ handled := true
             response :=
               if responseMessages.length > 0 then
                 some (strIntercalate "\n\n" responseMessages)
               else none }, mem)

/-- Tail of `processInputStep` (everything after the `productInput` block,
which is also reached by fall-through when a complete product's `nextStep`
is neither an action nor an image-input step). -/
def processInputStepTail (env : Env) (mem : Memory) (chatId : String)
    (messageText : String) (session : Session) (step : InputStep) :
    FlowResult × Memory :=
  let session :=
    { session with
      context := ctxSet session.context step.contextKey (CtxValue.str messageText)
      currentStep := step.nextStep }
  let mem := memSet env.now mem chatId session
  match flowStep env.flow step.nextStep with
  | some (Step.action a) => processActionStep env mem chatId session a
  | some (Step.choice c) =>
    ({ handled := true, buttons := some (buildButtonsFromChoice env c) }, mem)
  | some (Step.input i) =>
    ({ handled := true, response := some (getMessage env i.messageKey) }, mem)
  | some (Step.imageInput i) =>
    ({ handled := true, response := some (getMessage env i.messageKey) }, mem)
  | _ => ({ handled := true }, mem)

/-- `processInputStep`. -/
def processInputStep (env : Env) (mem : Memory) (chatId : String)
    (message : MessageInput) (session : Session) (step : InputStep) :
    FlowResult × Memory :=
  if message.type ≠ MsgType.text then
    ({ handled := true, response := some (getMessage env step.messageKey) }, mem)
  else
    let messageText := message.content
    if jsNormalize messageText = "stop" then
      let session :=
        { session with
          context :=
            ctxDelete (ctxDelete (ctxDelete session.context "productData")
              "productImage") step.contextKey
          currentStep := "awaiting_intent" }
      let mem := memSet env.now mem chatId session
      match flowStep env.flow "awaiting_intent" with
      | some (Step.choice c) =>
        ({ handled := true
           buttons := some { (buildButtonsFromChoice env c) with
             header := some (getMessage env "add_product_cancelled") } }, mem)
      | _ =>
        ({ handled := true, response := some (getMessage env "add_product_cancelled") },
          mem)
    else if step.contextKey = "productInput" then
      let existingData := ctxProductOrEmpty session.context
      let newFields := parseInputFields messageText
      let pe := validateAndMergeProduct env existingData newFields
      let product := pe.1
      let errors := pe.2
      let session :=
        { session with
          context := ctxSet session.context "productData" (CtxValue.product product) }
      if !isProductComplete product || errors.length > 0 then
        let mem := memSet env.now mem chatId session
        ({ handled := true
           response := some (buildMissingFieldsPrompt env product errors) }, mem)
      else
        let session := { session with currentStep := step.nextStep }
        let mem := memSet env.now mem chatId session
        match flowStep env.flow step.nextStep with
        | some (Step.action a) => processActionStep env mem chatId session a
        | some (Step.imageInput i) =>
          ({ handled := true, response := some (getMessage env i.messageKey) }, mem)
        | _ => processInputStepTail env mem chatId messageText session step
    else processInputStepTail env mem chatId messageText session step

/-- `processImageInputStep`. -/
def processImageInputStep (env : Env) (mem : Memory) (chatId : String)
    (message : MessageInput) (session : Session) (step : ImageInputStep) :
    FlowResult × Memory :=
  match message.type with
  | MsgType.text =>
    let text := jsNormalize message.content
    if text = "stop" then
      let session :=
        { session with
          context := ctxDelete (ctxDelete session.context "productData") "productImage"
          currentStep := "awaiting_intent" }
      let mem := memSet env.now mem chatId session
      match flowStep env.flow "awaiting_intent" with
      | some (Step.choice c) =>
        ({ handled := true
           buttons := some { (buildButtonsFromChoice env c) with
             header := some (getMessage env "add_product_cancelled") } }, mem)
      | _ =>
        ({ handled := true, response := some (getMessage env "add_product_cancelled") },
          mem)
    else
      match optTruthy step.skipKeyword with
      | some kw =>
        if step.optional && text = jsToLower kw then
          let session := { session with currentStep := step.nextStep }
          let mem := memSet env.now mem chatId session
          match flowStep env.flow step.nextStep with
          | some (Step.action a) => processActionStep env mem chatId session a
          | _ =>
            ({ handled := true
               response := some (getMessage env "add_product_image_skipped") }, mem)
        else
          ({ handled := true
             response := some (getMessage env "add_product_image_invalid") }, mem)
      | none =>
        ({ handled := true
           response := some (getMessage env "add_product_image_invalid") }, mem)
  | MsgType.image =>
    let session :=
      { session with
        context := ctxSet session.context step.contextKey
          (CtxValue.image { url := message.content, mimeType := message.mimeType })
        currentStep := step.nextStep }
    let mem := memSet env.now mem chatId session
    match flowStep env.flow step.nextStep with
    | some (Step.action a) =>
      let imageReceivedMsg := getMessage env "add_product_image_received"
      let rm := processActionStep env mem chatId session a
      let actionResult := rm.1
      let actionResult :=
        match optTruthy actionResult.preMessage with
        | some pm =>
          { actionResult with preMessage := some (imageReceivedMsg ++ "\n\n" ++ pm) }
        | none =>
          match optTruthy actionResult.response with
          | some r =>
            { actionResult with response := some (imageReceivedMsg ++ "\n\n" ++ r) }
          | none => { actionResult with response := some imageReceivedMsg }
      (actionResult, rm.2)
    | _ =>
      ({ handled := true
         response := some (getMessage env "add_product_image_received") }, mem)

/-- `process`: one turn of the interpreter. -/
def process (env : Env) (mem : Memory) (chatId : String)
    (message : MessageInput) : FlowResult × Memory :=
  match memGet env.now mem chatId with
  | (none, mem) =>
    match flowStep env.flow env.flow.initialStep with
    | some (Step.trigger t) => processTriggerStep env mem chatId message t
    | _ => ({ handled := false }, mem)
  | (some session, mem) =>
    match flowStep env.flow session.currentStep with
    | none => ({ handled := false }, memDelete mem chatId)
    | some (Step.trigger t) => processTriggerStep env mem chatId message t
    | some (Step.choice c) => processChoiceStep env mem chatId message session c
    | some (Step.input i) => processInputStep env mem chatId message session i
    | some (Step.imageInput i) => processImageInputStep env mem chatId message session i
    | some (Step.action a) => processActionStep env mem chatId session a
    | some (Step.terminal _) => ({ handled := false }, mem)

/-- The session as `memSet` stores it. -/
def stamped (now : ℕ) (mem : Memory) (session : Session) : Session :=
  { session with updatedAt := now, expiresAt := now + mem.timeoutMs }

/-! ## Concrete fixtures used by witnesses and counterexamples -/

def msgs0 : List (String × String) := [
  ("welcome", "Welcome!"),
  ("intent_prompt", "Choose: 1 or 2"),
  ("invalid_choice", "Invalid choice"),
  ("add_product_prompt", "Provide: Name/Price/Stock"),
  ("add_product_image_prompt", "Send an image or skip"),
  ("add_product_cancelled", "Cancelled"),
  ("add_product_received", "Added {name} at {permalink}"),
  ("add_product_error", "Could not add the product"),
  ("error_server", "Server error"),
  ("validation_error_name", "Name must not be empty"),
  ("validation_error_price", "Price must be a positive number"),
  ("validation_error_stock", "Stock must be a non-negative integer"),
  ("add_product_current_values", "Current:\n{current_values}"),
  ("add_product_missing_fields", "Missing:\n{missing_fields}"),
  ("goodbye", "Goodbye!")]

def flow0 : FlowDefinition :=
  { id := "inventory"
    initialStep := "awaiting_trigger"
    sessionTimeoutMs := 300000
    steps := [
      ("awaiting_trigger", Step.trigger
        { onMatch := { nextStep := "awaiting_intent", messageKey := some "welcome" }
          onNoMatch := { handled := false } }),
      ("awaiting_intent", Step.choice
        { responseType := "buttons"
          messageKey := "intent_prompt"
          options := [
            { id := "list", label := "List Products", aliases := ["1"] },
            { id := "add", label := "Add New Product", aliases := ["2"] }]
          transitions := [
            ("list", { nextStep := "list_products" }),
            ("add", { nextStep := "add_product_input" })]
          onInvalid := { messageKey := "invalid_choice", nextStep := "awaiting_intent" } }),
      ("add_product_input", Step.input
        { messageKey := "add_product_prompt", contextKey := "productInput",
          nextStep := "add_product_image" }),
      ("add_product_image", Step.imageInput
        { messageKey := "add_product_image_prompt", contextKey := "productImage",
          nextStep := "add_product_action", optional := true, skipKeyword := some "skip" }),
      ("add_product_action", Step.action { action := "addProduct", nextStep := "awaiting_intent" }),
      ("list_products", Step.action { action := "listProducts", nextStep := "awaiting_intent" }),
      ("farewell", Step.terminal { messageKey := some "goodbye" })] }

def env0 : Env :=
  { flow := flow0, messages := msgs0, triggerCode := some "start", now := 5, uuid := "uuid-1" }

def sess0 (stepId : String) (ctx : Context) : Session :=
  { chatId := "chat1", currentStep := stepId, context := ctx,
    createdAt := 0, updatedAt := 0, expiresAt := 1000 }

def mem0 (stepId : String) (ctx : Context) : Memory :=
  { timeoutMs := 300000, sessions := [("chat1", sess0 stepId ctx)] }

def memEmpty : Memory := { timeoutMs := 300000, sessions := [] }

/-- The button menu of `flow0`'s intent-selection step. -/
def btns0 (hdr : Option String) : FlowButtons :=
  { body := "Choose: 1 or 2"
    options := [{ buttonId := "list", buttonText := "List Products" },
                { buttonId := "add", buttonText := "Add New Product" }]
    header := hdr }

def flowC5 : FlowDefinition :=
  { id := "c5"
    initialStep := "awaiting_trigger"
    sessionTimeoutMs := 300000
    steps := [
      ("awaiting_intent", Step.choice
        { responseType := "buttons"
          messageKey := "intent_prompt"
          options := [{ id := "list", label := "List Products", aliases := ["1"] }]
          transitions := [("list", { nextStep := "list_products" })]
          onInvalid := { messageKey := "invalid_choice", nextStep := "awaiting_intent" } }),
      ("img", Step.imageInput
        { messageKey := "add_product_image_prompt", contextKey := "foo",
          nextStep := "awaiting_intent", optional := false, skipKeyword := none })] }

def envC5 : Env := { flow := flowC5, messages := msgs0, triggerCode := some "start", now := 5, uuid := "u" }

/-- The intent-selection choice step of `flow0`. -/
def intentStep0 : ChoiceStep :=
  { responseType := "buttons"
    messageKey := "intent_prompt"
    options := [
      { id := "list", label := "List Products", aliases := ["1"] },
      { id := "add", label := "Add New Product", aliases := ["2"] }]
    transitions := [
      ("list", { nextStep := "list_products" }),
      ("add", { nextStep := "add_product_input" })]
    onInvalid := { messageKey := "invalid_choice", nextStep := "awaiting_intent" } }

def inputStep0 : InputStep :=
  { messageKey := "add_product_prompt", contextKey := "productInput",
    nextStep := "add_product_image" }

def imageStep0 : ImageInputStep :=
  { messageKey := "add_product_image_prompt", contextKey := "productImage",
    nextStep := "add_product_action", optional := true, skipKeyword := some "skip" }

def stepC6 : ChoiceStep :=
  { responseType := "buttons"
    messageKey := "intent_prompt"
    options := [{ id := "Add", label := "Add", aliases := [] },
                { id := "other", label := "Other", aliases := ["ALIAS"] }]
    transitions := [("Add", { nextStep := "x" })]
    onInvalid := { messageKey := "invalid_choice", nextStep := "y" } }

/-! ## Choice-step edge cases -/

def flowC8 : FlowDefinition :=
  { id := "c8"
    initialStep := "t"
    sessionTimeoutMs := 300000
    steps := [
      ("menu", Step.choice
        { responseType := "buttons"
          messageKey := "intent_prompt"
          options := [{ id := "list", label := "List Products", aliases := ["1"] }]
          transitions := [("list", { nextStep := "other" })]
          onInvalid := { messageKey := "invalid_choice", nextStep := "other" } }),
      ("other", Step.input
        { messageKey := "add_product_prompt", contextKey := "k", nextStep := "menu" })] }

def envC8 : Env := { flow := flowC8, messages := msgs0, now := 5, uuid := "u" }

def flowC9 : FlowDefinition :=
  { id := "c9"
    initialStep := "t"
    sessionTimeoutMs := 300000
    steps := [
      ("menu", Step.choice
        { responseType := "buttons"
          messageKey := "intent_prompt"
          options := [{ id := "list", label := "List Products", aliases := ["1"] }]
          transitions := []
          onInvalid := { messageKey := "invalid_choice", nextStep := "menu" } })] }

def envC9 : Env := { flow := flowC9, messages := msgs0, now := 5, uuid := "u" }

def prod0 : WooProduct :=
  { id := 1, name := "Widget", slug := "widget", price := "9.99",
    regular_price := "9.99", sale_price := "", stock_status := "instock",
    stock_quantity := some (jsInt 3), status := "publish", description := "",
    short_description := "", sku := "uuid-1", permalink := "https://shop.example/widget" }

def wooOk : WooClient :=
  { getProducts := fun _ => Except.ok []
    createProduct := fun _ => Except.ok prod0 }

def wooFail : WooClient :=
  { getProducts := fun _ => Except.error (WooFailure.wooError WooErrorCode.server_error)
    createProduct := fun _ => Except.error (WooFailure.wooError WooErrorCode.server_error) }

def envOk : Env :=
  { flow := flow0, messages := msgs0, triggerCode := some "start",
    woo := some wooOk, now := 5, uuid := "uuid-1" }

def envFail : Env :=
  { flow := flow0, messages := msgs0, triggerCode := some "start",
    woo := some wooFail, now := 5, uuid := "uuid-1" }

def pd0 : ProductData :=
  { name := some "Widget", price := some (JSNum.num { num := 999, den := 100 }),
    stock := some (jsInt 3) }

def ctxStaged : Context :=
  [("productData", CtxValue.product pd0),
   ("productImage", CtxValue.image { url := "https://img.example/w.jpg" })]

/-! ## Lemmas about the map and store operations -/

theorem alGet_alSet_self {α : Type} (l : List (String × α)) (k : String) (v : α) :
    alGet (alSet l k v) k = some v := by
  induction l with
  | nil => simp [alGet, alSet]
  | cons p ps ih =>
    by_cases h : p.1 = k
    · simp [alSet, h, alGet]
    · simp only [alSet, if_neg h]
      simpa [alGet, List.find?, h] using ih

theorem alGet_alSet_ne {α : Type} (l : List (String × α)) (k k' : String) (v : α)
    (h : k' ≠ k) : alGet (alSet l k v) k' = alGet l k' := by
  have hk : ¬ (k = k') := fun e => h e.symm
  induction l with
  | nil => simp [alGet, alSet, hk]
  | cons p ps ih =>
    by_cases hp : p.1 = k
    · have hp' : ¬ p.1 = k' := by
        rw [hp]; exact hk
      simp [alSet, hp, alGet, List.find?, hk, hp']
    · by_cases hp' : p.1 = k'
      · simp [alSet, hp, alGet, List.find?, hp', hk, h]
      · simpa [alSet, hp, alGet, List.find?, hp'] using ih

theorem alGet_alDel_self {α : Type} (l : List (String × α)) (k : String) :
    alGet (alDel l k) k = none := by
  induction l with
  | nil => simp [alGet, alDel]
  | cons p ps ih =>
    by_cases h : p.1 = k
    · rw [show alDel (p :: ps) k = alDel ps k by simp [alDel, List.filter_cons, h]]
      exact ih
    · rw [show alDel (p :: ps) k = p :: alDel ps k by simp [alDel, List.filter_cons, h]]
      simpa [alGet, List.find?, h] using ih

theorem alGet_alDel_ne {α : Type} (l : List (String × α)) (k k' : String)
    (h : k' ≠ k) : alGet (alDel l k) k' = alGet l k' := by
  have hk : ¬ (k = k') := fun e => h e.symm
  induction l with
  | nil => simp [alGet, alDel]
  | cons p ps ih =>
    by_cases hp : p.1 = k
    · have hp' : ¬ p.1 = k' := by
        rw [hp]; exact hk
      simpa [alDel, hp, alGet, List.find?, hp', hk] using ih
    · by_cases hp' : p.1 = k'
      · simp [alDel, hp, alGet, List.find?, hp', h, hk]
      · simpa [alDel, hp, alGet, List.find?, hp'] using ih

theorem ctxGet_ctxSet_self (ctx : Context) (k : String) (v : CtxValue) :
    ctxGet (ctxSet ctx k v) k = some v := alGet_alSet_self ctx k v

theorem ctxGet_ctxSet_ne (ctx : Context) (k k' : String) (v : CtxValue)
    (h : k' ≠ k) : ctxGet (ctxSet ctx k v) k' = ctxGet ctx k' := alGet_alSet_ne ctx k k' v h

theorem ctxGet_ctxDelete_self (ctx : Context) (k : String) :
    ctxGet (ctxDelete ctx k) k = none := alGet_alDel_self ctx k

theorem ctxGet_ctxDelete_ne (ctx : Context) (k k' : String) (h : k' ≠ k) :
    ctxGet (ctxDelete ctx k) k' = ctxGet ctx k' := alGet_alDel_ne ctx k k' h

theorem memLookup_memSet_self (now : ℕ) (mem : Memory) (chatId : String)
    (session : Session) :
    memLookup (memSet now mem chatId session) chatId = some (stamped now mem session) := by
  unfold memLookup memSet stamped
  exact alGet_alSet_self _ _ _

theorem memGet_of_lookup_none (now : ℕ) (mem : Memory) (chatId : String)
    (h : memLookup mem chatId = none) : memGet now mem chatId = (none, mem) := by
  unfold memGet
  rw [h]

theorem memGet_of_live (now : ℕ) (mem : Memory) (chatId : String) (session : Session)
    (h : memLookup mem chatId = some session) (hl : now ≤ session.expiresAt) :
    memGet now mem chatId = (some session, mem) := by
  unfold memGet
  rw [h]
  simp [isExpired, Nat.not_lt.mpr hl]

/-! ## Cancellation and choice matching -/

theorem ctxGet_ctxDelete (ctx : Context) (k k' : String) :
    ctxGet (ctxDelete ctx k) k' = if k' = k then none else ctxGet ctx k' := by
  by_cases h : k' = k
  · rw [if_pos h, h]
    exact ctxGet_ctxDelete_self ctx k
  · rw [if_neg h]
    exact ctxGet_ctxDelete_ne ctx k k' h

theorem ctxGet_ctxDelete3_of_mem (ctx : Context) (k1 k2 k3 k' : String)
    (h : k' = k1 ∨ k' = k2 ∨ k' = k3) :
    ctxGet (ctxDelete (ctxDelete (ctxDelete ctx k1) k2) k3) k' = none := by
  rw [ctxGet_ctxDelete, ctxGet_ctxDelete, ctxGet_ctxDelete]
  split_ifs <;> simp_all

/-- C5 (counterexample): at an ImageInput step whose `contextKey` is
`"foo"`, a `" STOP "` message resets the session to `awaiting_intent` but
leaves `context.foo` in place — the step's own context key is not cleared. -/
theorem cancellation_counterexample :
    flowStep flowC5 "img" = some (Step.imageInput
      { messageKey := "add_product_image_prompt", contextKey := "foo",
        nextStep := "awaiting_intent", optional := false, skipKeyword := none })
    ∧ (memLookup (process envC5 (mem0 "img" [("foo", CtxValue.str "bar")]) "chat1"
          { type := MsgType.text, content := " STOP " }).2 "chat1").map
        (fun s => (ctxGet s.context "foo", s.currentStep))
        = some (some (CtxValue.str "bar"), "awaiting_intent") := by
  decide

/-- C5 (amended): a trimmed, lowercased `"stop"` at an Input step clears
`productData`, `productImage` and the step's own context key, resets the
session to `awaiting_intent`, stores it, and renders that step's choice
prompt with the cancelled header; at an ImageInput step the same happens
except that only `productData` and `productImage` are cleared (the step's
own context key is cleared only insofar as it is one of those two, as in
the shipped flow where it is `productImage`). -/
theorem cancellation_behavior (env : Env) (mem : Memory) (chatId : String)
    (msg : MessageInput) (session : Session) (istep : InputStep)
    (gstep : ImageInputStep) (c : ChoiceStep)
    (hmsg : msg.type = MsgType.text)
    (hstop : jsNormalize msg.content = "stop")
    (hs : memLookup mem chatId = some session)
    (hlive : env.now ≤ session.expiresAt)
    (hintent : flowStep env.flow "awaiting_intent" = some (Step.choice c)) :
    (flowStep env.flow session.currentStep = some (Step.input istep) →
        (process env mem chatId msg).1
          = { handled := true
              buttons := some { (buildButtonsFromChoice env c) with
                header := some (getMessage env "add_product_cancelled") } }
        ∧ (memLookup (process env mem chatId msg).2 chatId).map (fun s =>
              (ctxGet s.context "productData", ctxGet s.context "productImage",
                ctxGet s.context istep.contextKey, s.currentStep))
            = some (none, none, none, "awaiting_intent"))
    ∧ (flowStep env.flow session.currentStep = some (Step.imageInput gstep) →
        (process env mem chatId msg).1
          = { handled := true
              buttons := some { (buildButtonsFromChoice env c) with
                header := some (getMessage env "add_product_cancelled") } }
        ∧ (memLookup (process env mem chatId msg).2 chatId).map (fun s =>
              (ctxGet s.context "productData", ctxGet s.context "productImage",
                s.currentStep))
            = some (none, none, "awaiting_intent")) := by
  constructor
  · intro hstep
    have hred : process env mem chatId msg
        = processInputStep env mem chatId msg session istep := by
      simp only [process, memGet_of_live env.now mem chatId session hs hlive, hstep]
    rw [hred]
    unfold processInputStep
    rw [hmsg]
    simp only [ne_eq, not_true_eq_false, if_false, hstop, if_true, hintent]
    constructor
    · trivial
    · rw [memLookup_memSet_self]
      simp only [Option.map_some']
      rw [show (stamped env.now mem
          { session with
            context := ctxDelete (ctxDelete (ctxDelete session.context "productData")
              "productImage") istep.contextKey
            currentStep := "awaiting_intent" }).context
          = ctxDelete (ctxDelete (ctxDelete session.context "productData")
              "productImage") istep.contextKey from rfl]
      rw [ctxGet_ctxDelete3_of_mem _ _ _ _ _ (Or.inl rfl),
        ctxGet_ctxDelete3_of_mem _ _ _ _ _ (Or.inr (Or.inl rfl)),
        ctxGet_ctxDelete3_of_mem _ _ _ _ _ (Or.inr (Or.inr rfl))]
      rfl
  · intro hstep
    have hred : process env mem chatId msg
        = processImageInputStep env mem chatId msg session gstep := by
      simp only [process, memGet_of_live env.now mem chatId session hs hlive, hstep]
    rw [hred]
    unfold processImageInputStep
    rw [hmsg]
    simp only [hstop, if_true, hintent]
    constructor
    · trivial
    · rw [memLookup_memSet_self]
      simp only [Option.map_some']
      rw [show (stamped env.now mem
          { session with
            context := ctxDelete (ctxDelete session.context "productData") "productImage"
            currentStep := "awaiting_intent" }).context
          = ctxDelete (ctxDelete session.context "productData") "productImage" from rfl]
      rw [ctxGet_ctxDelete, ctxGet_ctxDelete, ctxGet_ctxDelete, ctxGet_ctxDelete]
      simp
      rfl

theorem cancellation_behavior_witness :
    ((process env0 (mem0 "add_product_input"
        [("productData", CtxValue.product { name := some "W" }),
         ("productInput", CtxValue.str "x")]) "chat1"
        { type := MsgType.text, content := " STOP " }).1
      = { handled := true, buttons := some (btns0 (some "Cancelled")) })
    ∧ ((memLookup (process env0 (mem0 "add_product_input"
        [("productData", CtxValue.product { name := some "W" }),
         ("productInput", CtxValue.str "x")]) "chat1"
        { type := MsgType.text, content := " STOP " }).2 "chat1").map (fun s =>
          (ctxGet s.context "productData", ctxGet s.context "productImage",
            ctxGet s.context inputStep0.contextKey, s.currentStep))
        = some (none, none, none, "awaiting_intent"))
    ∧ ((process env0 (mem0 "add_product_image"
        [("productData", CtxValue.product { name := some "W" }),
         ("productImage", CtxValue.image { url := "u" })]) "chat1"
        { type := MsgType.text, content := "Stop" }).1
      = { handled := true, buttons := some (btns0 (some "Cancelled")) })
    ∧ ((memLookup (process env0 (mem0 "add_product_image"
        [("productData", CtxValue.product { name := some "W" }),
         ("productImage", CtxValue.image { url := "u" })]) "chat1"
        { type := MsgType.text, content := "Stop" }).2 "chat1").map (fun s =>
          (ctxGet s.context "productData", ctxGet s.context "productImage",
            s.currentStep))
        = some (none, none, "awaiting_intent")) := by
  have h1 := (cancellation_behavior env0 (mem0 "add_product_input"
      [("productData", CtxValue.product { name := some "W" }),
       ("productInput", CtxValue.str "x")]) "chat1"
      { type := MsgType.text, content := " STOP " }
      (sess0 "add_product_input"
        [("productData", CtxValue.product { name := some "W" }),
         ("productInput", CtxValue.str "x")])
      inputStep0 imageStep0 intentStep0
      rfl (by decide) rfl (by decide) (by decide)).1 (by decide)
  have h2 := (cancellation_behavior env0 (mem0 "add_product_image"
      [("productData", CtxValue.product { name := some "W" }),
       ("productImage", CtxValue.image { url := "u" })]) "chat1"
      { type := MsgType.text, content := "Stop" }
      (sess0 "add_product_image"
        [("productData", CtxValue.product { name := some "W" }),
         ("productImage", CtxValue.image { url := "u" })])
      inputStep0 imageStep0 intentStep0
      rfl (by decide) rfl (by decide) (by decide)).2 (by decide)
  exact ⟨h1.1.trans (by decide), h1.2, h2.1.trans (by decide), h2.2⟩

/-- `findSome?` skips a block of elements on which the function is `none`. -/
theorem findSome?_append_of_none {α β : Type} (f : α → Option β)
    (pre rest : List α) (h : ∀ x ∈ pre, f x = none) :
    List.findSome? f (pre ++ rest) = List.findSome? f rest := by
  induction pre with
  | nil => rfl
  | cons p ps ih =>
    rw [List.cons_append, List.findSome?_cons, h p (List.mem_cons_self p ps)]
    exact ih (fun x hx => h x (List.mem_cons_of_mem p hx))

/-- C6 (counterexample): in a choice step with an option whose `id` is
`"Add"`, the input `"Add"` — identical to the id, so in particular differing
from it only in letter case — does not match (ids are compared raw against
the lowercased input), while an alias differing only in case does match. -/
theorem choice_matching_counterexample :
    matchChoiceOption stepC6 "Add" = none
    ∧ matchChoiceOption stepC6 "alias" = some "other" := by
  decide

/-- C6 (amended): the input is normalised by trimming and lowercasing and
options are tried in declaration order, first match winning; within an
option, the raw `id` is compared for exact equality with the normalised
input (so an id containing an upper-case letter can never match), and each
alias is compared lowercased (so aliases match case-insensitively). -/
theorem choice_option_matching (step : ChoiceStep) (input : String)
    (pre post : List StepOption) (o : StepOption)
    (hsplit : step.options = pre ++ o :: post)
    (hpre : ∀ o' ∈ pre, o'.id ≠ jsNormalize input
        ∧ ∀ a ∈ o'.aliases, jsToLower a ≠ jsNormalize input)
    (ho : o.id = jsNormalize input ∨ ∃ a ∈ o.aliases, jsToLower a = jsNormalize input) :
    matchChoiceOption step input = some o.id := by
  unfold matchChoiceOption
  rw [hsplit, findSome?_append_of_none _ pre _ ?hpre]
  case hpre =>
    intro o' ho'
    rcases hpre o' ho' with ⟨hid, hal⟩
    have hany : (o'.aliases.any (fun a => jsToLower a = jsNormalize input)) = false := by
      rw [List.any_eq_false]
      intro a ha
      simp [hal a ha]
    simp [hid, hany]
  rw [List.findSome?_cons]
  rcases ho with h | ⟨a, ha, h⟩
  · simp [h]
  · by_cases hid : o.id = jsNormalize input
    · simp [hid]
    · have hany : (o.aliases.any (fun a => jsToLower a = jsNormalize input)) = true := by
        rw [List.any_eq_true]
        exact ⟨a, ha, by simp [h]⟩
      simp [hid, hany]

/-- Concrete instance of C6 as amended: with options `[list, add]` (aliases
`["1"]`, `["2"]`), the input `" ADD "` — matching the second option's id
only after normalisation — selects `add`, the first option having no
matching id or alias. -/
theorem choice_option_matching_witness :
    matchChoiceOption intentStep0 " ADD " = some "add" := by
  have h := choice_option_matching intentStep0 " ADD "
    [{ id := "list", label := "List Products", aliases := ["1"] }] []
    { id := "add", label := "Add New Product", aliases := ["2"] }
    (by decide)
    (by
      intro o' ho'
      simp at ho'
      subst ho'
      exact ⟨by decide, by decide⟩)
    (Or.inl (by decide))
  exact h

/-- C8 (counterexample): at a choice step whose `onInvalid.nextStep` is the
distinct step `"other"`, an image message renders the invalid message but
the store is left completely unchanged — the session still sits on
`"menu"`, it does not move to `onInvalid.nextStep`. -/
theorem nontext_choice_counterexample :
    flowStep flowC8 "menu" = some (Step.choice
      { responseType := "buttons"
        messageKey := "intent_prompt"
        options := [{ id := "list", label := "List Products", aliases := ["1"] }]
        transitions := [("list", { nextStep := "other" })]
        onInvalid := { messageKey := "invalid_choice", nextStep := "other" } })
    ∧ process envC8 (mem0 "menu" []) "chat1" { type := MsgType.image, content := "i" }
        = ({ handled := true, response := some "Invalid choice" }, mem0 "menu" [])
    ∧ (memLookup (process envC8 (mem0 "menu" []) "chat1"
          { type := MsgType.image, content := "i" }).2 "chat1").map
        (fun s => s.currentStep) = some "menu" := by
  decide

/-- C8 (amended): a non-text message at a Choice step renders the
`onInvalid` message (as a header over the target step's buttons when
`onInvalid.nextStep` is a choice step, as plain text otherwise) but changes
no session state at all: the store is returned unchanged and in particular
the current step does not move to `onInvalid.nextStep`. -/
theorem nontext_choice_behavior (env : Env) (mem : Memory) (chatId : String)
    (msg : MessageInput) (session : Session) (step : ChoiceStep) (c : ChoiceStep)
    (hmsg : msg.type = MsgType.image)
    (hs : memLookup mem chatId = some session)
    (hlive : env.now ≤ session.expiresAt)
    (hstep : flowStep env.flow session.currentStep = some (Step.choice step)) :
    (process env mem chatId msg).2 = mem
    ∧ (flowStep env.flow step.onInvalid.nextStep = some (Step.choice c) →
        (process env mem chatId msg).1
          = { handled := true
              buttons := some { (buildButtonsFromChoice env c) with
                header := some (getMessage env step.onInvalid.messageKey) } })
    ∧ (isChoiceStep (flowStep env.flow step.onInvalid.nextStep) = false →
        (process env mem chatId msg).1
          = { handled := true, response := some (getMessage env step.onInvalid.messageKey) }) := by
  have hred : process env mem chatId msg = processChoiceStep env mem chatId msg session step := by
    simp only [process, memGet_of_live env.now mem chatId session hs hlive, hstep]
  refine ⟨?_, ?_, ?_⟩
  · rw [hred]
    unfold processChoiceStep
    simp only [hmsg]
    rw [if_pos (show (MsgType.image ≠ MsgType.text) by decide)]
    split <;> rfl
  · intro h2
    rw [hred]
    unfold processChoiceStep
    simp only [hmsg]
    rw [if_pos (show (MsgType.image ≠ MsgType.text) by decide), h2]
  · intro h2
    rw [hred]
    unfold processChoiceStep
    simp only [hmsg]
    rw [if_pos (show (MsgType.image ≠ MsgType.text) by decide)]
    rcases h3 : flowStep env.flow step.onInvalid.nextStep with _ | st
    · rfl
    · rw [h3] at h2
      cases st <;> simp [isChoiceStep] at h2 <;> rfl

/-- Concrete instance of C8 as amended: an image at `flow0`'s intent menu
re-renders the menu with the invalid-choice header and leaves the store
unchanged. -/
theorem nontext_choice_behavior_witness :
    (process env0 (mem0 "awaiting_intent" []) "chat1"
        { type := MsgType.image, content := "i" }).2 = mem0 "awaiting_intent" []
    ∧ (process env0 (mem0 "awaiting_intent" []) "chat1"
        { type := MsgType.image, content := "i" }).1
      = { handled := true, buttons := some (btns0 (some "Invalid choice")) } := by
  have h := nontext_choice_behavior env0 (mem0 "awaiting_intent" []) "chat1"
    { type := MsgType.image, content := "i" } (sess0 "awaiting_intent" [])
    intentStep0 intentStep0 rfl rfl (by decide) (by decide)
  exact ⟨h.1, (h.2.1 (by decide)).trans (by decide)⟩

/-- C9 (counterexample): with `onInvalid.nextStep` pointing back at the
choice step itself, a non-matching input (`"zzz"`) is answered with a
button menu and re-stores the session, while a matching option with no
transition (`"list"`) is answered with a plain-text response and leaves the
store untouched — the two paths produce neither the same response
directive nor the same session-state change. -/
theorem missing_transition_counterexample :
    (process envC9 (mem0 "menu" []) "chat1" { type := MsgType.text, content := "list" }).1.buttons
        = none
    ∧ (process envC9 (mem0 "menu" []) "chat1" { type := MsgType.text, content := "list" }).1.response
        = some "Invalid choice"
    ∧ (process envC9 (mem0 "menu" []) "chat1" { type := MsgType.text, content := "list" }).2
        = mem0 "menu" []
    ∧ (process envC9 (mem0 "menu" []) "chat1" { type := MsgType.text, content := "zzz" }).1.buttons.isSome
        = true
    ∧ (process envC9 (mem0 "menu" []) "chat1" { type := MsgType.text, content := "zzz" }).2
        ≠ mem0 "menu" [] := by
  decide

/-- C9 (amended): a matched option whose id has no entry in the step's
transitions map is handled leniently, not as a configuration error: the
turn is answered `{handled := true}` carrying the same invalid-choice
message key as the no-match path, but always as a plain-text response (even
when the no-match path would render buttons) and with no session-state
change at all (while the no-match path re-stores the session with
`currentStep := onInvalid.nextStep`). -/
theorem missing_transition_behavior (env : Env) (mem : Memory) (chatId : String)
    (msg : MessageInput) (session : Session) (step : ChoiceStep) (opt : String)
    (hmsg : msg.type = MsgType.text)
    (hs : memLookup mem chatId = some session)
    (hlive : env.now ≤ session.expiresAt)
    (hstep : flowStep env.flow session.currentStep = some (Step.choice step))
    (hmatch : matchChoiceOption step msg.content = some opt)
    (htrans : alGet step.transitions opt = none) :
    process env mem chatId msg
      = ({ handled := true, response := some (getMessage env step.onInvalid.messageKey) }, mem) := by
  have hred : process env mem chatId msg = processChoiceStep env mem chatId msg session step := by
    simp only [process, memGet_of_live env.now mem chatId session hs hlive, hstep]
  rw [hred]
  unfold processChoiceStep
  simp only [hmsg]
  rw [if_neg (show ¬ (MsgType.text ≠ MsgType.text) by decide), hmatch]
  dsimp only
  rw [htrans]

/-- Concrete instance of C9 as amended: `"list"` matches but has no
transition in `flowC9`; the turn degrades to the plain invalid-choice
response with the store unchanged. -/
theorem missing_transition_behavior_witness :
    process envC9 (mem0 "menu" []) "chat1" { type := MsgType.text, content := "list" }
      = ({ handled := true, response := some "Invalid choice" }, mem0 "menu" []) := by
  have h := missing_transition_behavior envC9 (mem0 "menu" []) "chat1"
    { type := MsgType.text, content := "list" } (sess0 "menu" [])
    { responseType := "buttons"
      messageKey := "intent_prompt"
      options := [{ id := "list", label := "List Products", aliases := ["1"] }]
      transitions := []
      onInvalid := { messageKey := "invalid_choice", nextStep := "menu" } }
    "list" rfl rfl (by decide) (by decide) (by decide) rfl
  exact h.trans (by decide)

/-! ## Action-step error handling and context cleanup -/

/-- `errorCodeToMessageKey` maps every failure kind to a distinct key. -/
theorem errorCodeToMessageKey_injective :
    ∀ c1 c2 : WooErrorCode, errorCodeToMessageKey c1 = errorCodeToMessageKey c2 → c1 = c2 := by
  intro c1 c2 h
  cases c1 <;> cases c2 <;> first | rfl | exact absurd h (by decide)

/-- Every action-step execution answers `handled := true` and stores the
session advanced to the action's `nextStep`, whatever the action and the
collaborator outcome. -/
theorem processActionStep_handled_and_advance (env : Env) (mem : Memory)
    (chatId : String) (session : Session) (step : ActionStep) :
    (processActionStep env mem chatId session step).1.handled = true
    ∧ (memLookup (processActionStep env mem chatId session step).2 chatId).map
        (fun s => s.currentStep) = some step.nextStep := by
  constructor
  · unfold processActionStep
    dsimp only
    split
    · rfl
    · split <;> rfl
  · unfold processActionStep
    dsimp only
    split
    · rw [memLookup_memSet_self]
      rfl
    · split <;> (rw [memLookup_memSet_self]; rfl)

/-- C7: collaborator failures during an Action step are caught at the
action boundary and never escape `process` (every turn yields a result,
`handled := true`); a failing `createProduct` call surfaces
`add_product_error` followed by the message of the distinct key that
`errorCodeToMessageKey` (an injective mapping) assigns to the failure kind,
as part of the action's result text; and whatever the collaborator outcome,
the session is stored advanced to the action's `nextStep`. -/
theorem action_error_handling (envA : Env) (memA : Memory) (chatA : String)
    (sessionA : Session) (astepA : ActionStep)
    (env : Env) (mem : Memory) (chatId : String) (msg : MessageInput)
    (session : Session) (astep : ActionStep) (woo : WooClient)
    (code : WooErrorCode) (pd : ProductData) (cNext : ChoiceStep)
    (c1 c2 : WooErrorCode)
    (hs : memLookup mem chatId = some session)
    (hlive : env.now ≤ session.expiresAt)
    (hstep : flowStep env.flow session.currentStep = some (Step.action astep))
    (hact : astep.action = "addProduct")
    (hwoo : env.woo = some woo)
    (hfail : woo.createProduct = fun _ => Except.error (WooFailure.wooError code))
    (hpd : ctxProduct? session.context = some pd)
    (hcomplete : isProductComplete pd = true)
    (hnext : flowStep env.flow astep.nextStep = some (Step.choice cNext)) :
    ((processActionStep envA memA chatA sessionA astepA).1.handled = true
      ∧ (memLookup (processActionStep envA memA chatA sessionA astepA).2 chatA).map
          (fun s => s.currentStep) = some astepA.nextStep)
    ∧ (process env mem chatId msg).1.handled = true
    ∧ (process env mem chatId msg).1.preMessage
        = some (getMessage env "add_product_error" ++ "\n\n"
            ++ getMessage env (errorCodeToMessageKey code))
    ∧ (memLookup (process env mem chatId msg).2 chatId).map (fun s => s.currentStep)
        = some astep.nextStep
    ∧ (errorCodeToMessageKey c1 = errorCodeToMessageKey c2 → c1 = c2) := by
  have hred : process env mem chatId msg = processActionStep env mem chatId session astep := by
    simp only [process, memGet_of_live env.now mem chatId session hs hlive, hstep]
  have hexec : executeAddProduct env session
      = (getMessage env "add_product_error" ++ "\n\n"
          ++ getMessage env (errorCodeToMessageKey code),
        { session with
          context := ctxSet session.context "productData"
            (CtxValue.product { pd with sku := some env.uuid }) }) := by
    unfold executeAddProduct
    rw [hpd]
    try dsimp only
    rw [hcomplete]
    simp only [Bool.not_true, Bool.false_eq_true, if_false, hwoo]
    try dsimp only
    rw [hfail]
    rfl
  have hfst : process env mem chatId msg
      = ({ handled := true
           preMessage := some (getMessage env "add_product_error" ++ "\n\n"
             ++ getMessage env (errorCodeToMessageKey code))
           buttons := some (buildButtonsFromChoice env cNext) },
         memSet env.now mem chatId
           { session with
             context := ctxSet session.context "productData"
               (CtxValue.product { pd with sku := some env.uuid })
             currentStep := astep.nextStep }) := by
    rw [hred]
    unfold processActionStep
    rw [if_neg (by rw [hact]; decide), if_pos hact, hexec]
    dsimp only
    rw [hnext]
  refine ⟨processActionStep_handled_and_advance envA memA chatA sessionA astepA, ?_, ?_, ?_,
    errorCodeToMessageKey_injective c1 c2⟩
  · rw [hfst]
  · rw [hfst]
  · rw [hfst]
    dsimp only
    rw [memLookup_memSet_self]
    rfl

/-- Concrete instance of C7: with a collaborator failing with
`server_error`, the turn is handled, the mapped error message is surfaced
as the pre-message, and the session has advanced to the action's
`nextStep`. -/
theorem action_error_handling_witness :
    (process envFail (mem0 "add_product_action" ctxStaged) "chat1"
        { type := MsgType.text, content := "x" }).1.handled = true
    ∧ (process envFail (mem0 "add_product_action" ctxStaged) "chat1"
        { type := MsgType.text, content := "x" }).1.preMessage
      = some "Could not add the product\n\nServer error"
    ∧ (memLookup (process envFail (mem0 "add_product_action" ctxStaged) "chat1"
        { type := MsgType.text, content := "x" }).2 "chat1").map (fun s => s.currentStep)
      = some "awaiting_intent" := by
  have h := action_error_handling envFail (mem0 "add_product_action" ctxStaged) "chat1"
    (sess0 "add_product_action" ctxStaged) { action := "addProduct", nextStep := "awaiting_intent" }
    envFail (mem0 "add_product_action" ctxStaged) "chat1"
    { type := MsgType.text, content := "x" }
    (sess0 "add_product_action" ctxStaged)
    { action := "addProduct", nextStep := "awaiting_intent" }
    wooFail WooErrorCode.server_error pd0 intentStep0
    WooErrorCode.unknown WooErrorCode.unknown
    rfl (by decide) (by decide) rfl rfl rfl rfl (by decide) (by decide)
  exact ⟨h.2.1, h.2.2.1.trans (by decide), h.2.2.2.1⟩

/-- The stored state of an action step, independent of the rendering of the
following step. -/
theorem processActionStep_snd (env : Env) (mem : Memory) (chatId : String)
    (session : Session) (step : ActionStep) :
    (processActionStep env mem chatId session step).2
      = memSet env.now mem chatId
          { (if step.action = "listProducts" then (executeListProducts env, session)
             else if step.action = "addProduct" then executeAddProduct env session
             else ("[Action: " ++ step.action ++ "]", session)).2 with
            currentStep := step.nextStep } := by
  unfold processActionStep
  dsimp only
  split
  · rfl
  · split <;> rfl

/-- C10: after an `addProduct` action whose `createProduct` call succeeds,
the staged `productData` and `productImage` entries are gone from the
stored session's context; after a failing call the staged product — now
carrying the freshly generated sku — remains, and `productImage` is
untouched; in both cases the stored session has advanced to the action's
`nextStep`. -/
theorem addproduct_context_cleanup
    (env1 : Env) (mem1 : Memory) (chat1 : String) (s1 : Session) (a1 : ActionStep)
    (w1 : WooClient) (pd1 : ProductData) (created : WooProduct)
    (env2 : Env) (mem2 : Memory) (chat2 : String) (s2 : Session) (a2 : ActionStep)
    (w2 : WooClient) (pd2 : ProductData) (f : WooFailure)
    (hact1 : a1.action = "addProduct") (hw1 : env1.woo = some w1)
    (hok : w1.createProduct = fun _ => Except.ok created)
    (hpd1 : ctxProduct? s1.context = some pd1) (hc1 : isProductComplete pd1 = true)
    (hact2 : a2.action = "addProduct") (hw2 : env2.woo = some w2)
    (hfail : w2.createProduct = fun _ => Except.error f)
    (hpd2 : ctxProduct? s2.context = some pd2) (hc2 : isProductComplete pd2 = true) :
    ((memLookup (processActionStep env1 mem1 chat1 s1 a1).2 chat1).map
        (fun s => ctxGet s.context "productData") = some none
    ∧ (memLookup (processActionStep env1 mem1 chat1 s1 a1).2 chat1).map
        (fun s => ctxGet s.context "productImage") = some none
    ∧ (memLookup (processActionStep env1 mem1 chat1 s1 a1).2 chat1).map
        (fun s => s.currentStep) = some a1.nextStep)
    ∧ ((memLookup (processActionStep env2 mem2 chat2 s2 a2).2 chat2).map
        (fun s => ctxGet s.context "productData")
        = some (some (CtxValue.product { pd2 with sku := some env2.uuid }))
    ∧ (memLookup (processActionStep env2 mem2 chat2 s2 a2).2 chat2).map
        (fun s => ctxGet s.context "productImage")
        = some (ctxGet s2.context "productImage")
    ∧ (memLookup (processActionStep env2 mem2 chat2 s2 a2).2 chat2).map
        (fun s => s.currentStep) = some a2.nextStep) := by
  have hexec1 : executeAddProduct env1 s1
      = (replaceFirst (replaceFirst (getMessage env1 "add_product_received")
            "{name}" created.name) "{permalink}" created.permalink,
        { s1 with
          context := ctxDelete (ctxDelete (ctxSet s1.context "productData"
              (CtxValue.product { pd1 with sku := some env1.uuid }))
            "productData") "productImage" }) := by
    unfold executeAddProduct
    rw [hpd1]
    try dsimp only
    rw [hc1]
    simp only [Bool.not_true, Bool.false_eq_true, if_false, hw1]
    try dsimp only
    rw [hok]
    try rfl
  have hexec2 : executeAddProduct env2 s2
      = (getMessage env2 "add_product_error" ++ "\n\n" ++ getErrorMessage env2 f,
        { s2 with
          context := ctxSet s2.context "productData"
            (CtxValue.product { pd2 with sku := some env2.uuid }) }) := by
    unfold executeAddProduct
    rw [hpd2]
    try dsimp only
    rw [hc2]
    simp only [Bool.not_true, Bool.false_eq_true, if_false, hw2]
    try dsimp only
    rw [hfail]
    try rfl
  have hsnd1 : (processActionStep env1 mem1 chat1 s1 a1).2
      = memSet env1.now mem1 chat1
          { s1 with
            context := ctxDelete (ctxDelete (ctxSet s1.context "productData"
                (CtxValue.product { pd1 with sku := some env1.uuid }))
              "productData") "productImage"
            currentStep := a1.nextStep } := by
    rw [processActionStep_snd env1 mem1 chat1 s1 a1,
      if_neg (show ¬ a1.action = "listProducts" by rw [hact1]; decide),
      if_pos hact1, hexec1]
  have hsnd2 : (processActionStep env2 mem2 chat2 s2 a2).2
      = memSet env2.now mem2 chat2
          { s2 with
            context := ctxSet s2.context "productData"
              (CtxValue.product { pd2 with sku := some env2.uuid })
            currentStep := a2.nextStep } := by
    rw [processActionStep_snd env2 mem2 chat2 s2 a2,
      if_neg (show ¬ a2.action = "listProducts" by rw [hact2]; decide),
      if_pos hact2, hexec2]
  refine ⟨⟨?_, ?_, ?_⟩, ?_, ?_, ?_⟩
  · rw [hsnd1, memLookup_memSet_self]
    simp only [Option.map_some']
    refine congrArg some ?_
    show ctxGet (ctxDelete (ctxDelete (ctxSet s1.context "productData"
        (CtxValue.product { pd1 with sku := some env1.uuid })) "productData")
      "productImage") "productData" = none
    rw [ctxGet_ctxDelete, if_neg (by decide), ctxGet_ctxDelete_self]
  · rw [hsnd1, memLookup_memSet_self]
    simp only [Option.map_some']
    refine congrArg some ?_
    show ctxGet (ctxDelete (ctxDelete (ctxSet s1.context "productData"
        (CtxValue.product { pd1 with sku := some env1.uuid })) "productData")
      "productImage") "productImage" = none
    rw [ctxGet_ctxDelete_self]
  · rw [hsnd1, memLookup_memSet_self]
    rfl
  · rw [hsnd2, memLookup_memSet_self]
    simp only [Option.map_some']
    refine congrArg some ?_
    show ctxGet (ctxSet s2.context "productData"
        (CtxValue.product { pd2 with sku := some env2.uuid })) "productData"
      = some (CtxValue.product { pd2 with sku := some env2.uuid })
    rw [ctxGet_ctxSet_self]
  · rw [hsnd2, memLookup_memSet_self]
    simp only [Option.map_some']
    refine congrArg some ?_
    show ctxGet (ctxSet s2.context "productData"
        (CtxValue.product { pd2 with sku := some env2.uuid })) "productImage"
      = ctxGet s2.context "productImage"
    rw [ctxGet_ctxSet_ne _ _ _ _ (by decide)]
  · rw [hsnd2, memLookup_memSet_self]
    rfl

/-- Concrete instance of C10: after a successful `createProduct` the staged
entries are gone; after a failing one the staged product — carrying the
freshly generated sku — and the staged image are still in the stored
context, with the session advanced in both cases. -/
theorem addproduct_context_cleanup_witness :
    (memLookup (processActionStep envOk (mem0 "add_product_action" ctxStaged) "chat1"
        (sess0 "add_product_action" ctxStaged)
        { action := "addProduct", nextStep := "awaiting_intent" }).2 "chat1").map
      (fun s => (ctxGet s.context "productData", ctxGet s.context "productImage",
        s.currentStep))
      = some (none, none, "awaiting_intent")
    ∧ (memLookup (processActionStep envFail (mem0 "add_product_action" ctxStaged) "chat1"
        (sess0 "add_product_action" ctxStaged)
        { action := "addProduct", nextStep := "awaiting_intent" }).2 "chat1").map
      (fun s => (ctxGet s.context "productData", ctxGet s.context "productImage",
        s.currentStep))
      = some (some (CtxValue.product { pd0 with sku := some "uuid-1" }),
          some (CtxValue.image { url := "https://img.example/w.jpg" }),
          "awaiting_intent") := by
  have h := addproduct_context_cleanup
    envOk (mem0 "add_product_action" ctxStaged) "chat1"
    (sess0 "add_product_action" ctxStaged)
    { action := "addProduct", nextStep := "awaiting_intent" } wooOk pd0 prod0
    envFail (mem0 "add_product_action" ctxStaged) "chat1"
    (sess0 "add_product_action" ctxStaged)
    { action := "addProduct", nextStep := "awaiting_intent" } wooFail pd0
    (WooFailure.wooError WooErrorCode.server_error)
    rfl rfl rfl rfl (by decide) rfl rfl rfl rfl (by decide)
  constructor
  · have h1 := h.1.1
    have h2 := h.1.2.1
    have h3 := h.1.2.2
    rcases hm : memLookup (processActionStep envOk (mem0 "add_product_action" ctxStaged)
        "chat1" (sess0 "add_product_action" ctxStaged)
        { action := "addProduct", nextStep := "awaiting_intent" }).2 "chat1" with _ | s
    · rw [hm] at h1
      simp at h1
    · rw [hm] at h1 h2 h3
      simp only [Option.map_some'] at h1 h2 h3 ⊢
      rw [Option.some_inj] at h1 h2 h3
      rw [h1, h2, h3]
  · have h1 := h.2.1
    have h2 := h.2.2.1
    have h3 := h.2.2.2
    rcases hm : memLookup (processActionStep envFail (mem0 "add_product_action" ctxStaged)
        "chat1" (sess0 "add_product_action" ctxStaged)
        { action := "addProduct", nextStep := "awaiting_intent" }).2 "chat1" with _ | s
    · rw [hm] at h1
      simp at h1
    · rw [hm] at h1 h2 h3
      simp only [Option.map_some'] at h1 h2 h3 ⊢
      rw [Option.some_inj] at h1 h2 h3
      rw [h1, h2, h3]
      exact congrArg some (by decide)

/-! ## Trigger gating, terminal steps, and the field validator -/

/-- On a failed trigger match the controller answers `onNoMatch.handled`
and leaves the store untouched. -/
theorem processTriggerStep_of_nomatch (env : Env) (mem : Memory) (chatId : String)
    (message : MessageInput) (t : TriggerStep)
    (h : isTriggerMatch env message = false) :
    processTriggerStep env mem chatId message t
      = ({ handled := t.onNoMatch.handled }, mem) := by
  unfold processTriggerStep
  rw [h]
  rfl

/-- On a successful trigger match the stored state is the freshly created
session, whatever the rendered response is. -/
theorem processTriggerStep_snd_of_match (env : Env) (mem : Memory) (chatId : String)
    (message : MessageInput) (t : TriggerStep)
    (h : isTriggerMatch env message = true) :
    (processTriggerStep env mem chatId message t).2
      = memSet env.now mem chatId
          (memCreateSession env.now mem chatId t.onMatch.nextStep) := by
  unfold processTriggerStep
  rw [h]
  simp only [Bool.not_true, Bool.false_eq_true, if_false]
  split <;> rfl

/-- C1: for a text message arriving with no existing session, when a trigger
code is configured `process` creates and stores a session iff the trimmed,
lowercased content equals the lowercased code; with no (truthy) trigger code
configured a session is stored for any text message (with the trigger's
`onMatch.nextStep` as current step and an empty context); and on no match
`process` returns `{handled := onNoMatch.handled}` with the store unchanged,
so no session is created. -/
theorem trigger_gating (env : Env) (mem : Memory) (chatId : String)
    (msg : MessageInput) (t : TriggerStep) (c : String)
    (hmsg : msg.type = MsgType.text)
    (hno : memLookup mem chatId = none)
    (hinit : flowStep env.flow env.flow.initialStep = some (Step.trigger t)) :
    (optTruthy env.triggerCode = some c →
        ((memLookup (process env mem chatId msg).2 chatId).isSome ↔
          jsNormalize msg.content = jsToLower c))
    ∧ (optTruthy env.triggerCode = none →
        (memLookup (process env mem chatId msg).2 chatId).map
            (fun s => (s.currentStep, s.context))
          = some (t.onMatch.nextStep, ([] : Context)))
    ∧ (isTriggerMatch env msg = false →
        process env mem chatId msg = ({ handled := t.onNoMatch.handled }, mem)) := by
  have hproc : process env mem chatId msg = processTriggerStep env mem chatId msg t := by
    simp only [process, memGet_of_lookup_none env.now mem chatId hno, hinit]
  have hstore : isTriggerMatch env msg = true →
      (memLookup (process env mem chatId msg).2 chatId).map
          (fun s => (s.currentStep, s.context))
        = some (t.onMatch.nextStep, ([] : Context)) := by
    intro hm
    rw [hproc, processTriggerStep_snd_of_match env mem chatId msg t hm,
      memLookup_memSet_self]
    rfl
  refine ⟨?_, ?_, ?_⟩
  · intro hc
    constructor
    · intro hsome
      by_cases hm : isTriggerMatch env msg = true
      · unfold isTriggerMatch at hm
        simp [hmsg, hc] at hm
        exact hm
      · exfalso
        rw [hproc, processTriggerStep_of_nomatch env mem chatId msg t
          (Bool.eq_false_iff.mpr hm)] at hsome
        simp [hno] at hsome
    · intro heq
      have hm : isTriggerMatch env msg = true := by
        unfold isTriggerMatch
        simp [hmsg, hc, heq]
      have hx := hstore hm
      rcases h : memLookup (process env mem chatId msg).2 chatId with _ | s
      · rw [h] at hx
        simp at hx
      · simp
  · intro hc
    have hm : isTriggerMatch env msg = true := by
      unfold isTriggerMatch
      simp [hmsg, hc]
    exact hstore hm
  · intro hm
    rw [hproc, processTriggerStep_of_nomatch env mem chatId msg t hm]

/-- Concrete instance of C1: in `flow0` with trigger code `start`, the
message `" START "` creates a session while `"hello"` is answered
`{handled := false}` and leaves the store empty. -/
theorem trigger_gating_witness :
    (memLookup (process env0 memEmpty "chat1"
        { type := MsgType.text, content := " START " }).2 "chat1").isSome
    ∧ process env0 memEmpty "chat1" { type := MsgType.text, content := "hello" }
        = ({ handled := false }, memEmpty) := by
  refine ⟨?_, ?_⟩
  · have h := trigger_gating env0 memEmpty "chat1"
      { type := MsgType.text, content := " START " }
      { onMatch := { nextStep := "awaiting_intent", messageKey := some "welcome" }
        onNoMatch := { handled := false } }
      "start" rfl rfl (by decide)
    exact (h.1 (by decide)).mpr (by decide)
  · have h := trigger_gating env0 memEmpty "chat1"
      { type := MsgType.text, content := "hello" }
      { onMatch := { nextStep := "awaiting_intent", messageKey := some "welcome" }
        onNoMatch := { handled := false } }
      "start" rfl rfl (by decide)
    exact h.2.2 (by decide)

/-- C2 (counterexample): in `flow0` the step `farewell` is a Terminal step
whose message key resolves to `"Goodbye!"`, yet a session sitting on it is
answered `{handled := false}` with no response text at all — the message is
not rendered. -/
theorem terminal_current_step_counterexample :
    flowStep env0.flow "farewell" = some (Step.terminal { messageKey := some "goodbye" })
    ∧ getMessage env0 "goodbye" = "Goodbye!"
    ∧ process env0 (mem0 "farewell" []) "chat1" { type := MsgType.text, content := "hi" }
        = ({ handled := false }, mem0 "farewell" []) := by
  decide

/-- C2 (amended): a session whose current step resolves to a Terminal step
falls into the unhandled-step-type default: `process` returns
`{handled := false}` and leaves the store unchanged, rendering no message;
a Terminal step's message is rendered only on arrival — e.g. an action step
whose `nextStep` is a Terminal step with a truthy message key appends that
message to the action's result text. -/
theorem terminal_step_behavior (env : Env) (mem : Memory) (chatId : String)
    (msg : MessageInput) (session : Session) (ts : TerminalStep)
    (env2 : Env) (mem2 : Memory) (chatId2 : String) (session2 : Session)
    (astep : ActionStep) (k : String)
    (hs : memLookup mem chatId = some session)
    (hlive : env.now ≤ session.expiresAt)
    (hstep : flowStep env.flow session.currentStep = some (Step.terminal ts))
    (hact1 : astep.action ≠ "listProducts")
    (hact2 : astep.action ≠ "addProduct")
    (hnext : flowStep env2.flow astep.nextStep
        = some (Step.terminal { messageKey := some k }))
    (hk : k ≠ "") :
    process env mem chatId msg = ({ handled := false }, mem)
    ∧ (processActionStep env2 mem2 chatId2 session2 astep).1.response
        = some ("[Action: " ++ astep.action ++ "]" ++ "\n\n" ++ getMessage env2 k) := by
  constructor
  · simp only [process, memGet_of_live env.now mem chatId session hs hlive, hstep]
  · unfold processActionStep
    simp [hact1, hact2, hnext, stepMessageKey?, optTruthy, hk]

/-- Concrete instance of C2 as amended: the terminal session is answered
`{handled := false}`, and an action step flowing into `farewell` has the
goodbye message appended to its result. -/
theorem terminal_step_behavior_witness :
    process env0 (mem0 "farewell" []) "chat1" { type := MsgType.text, content := "x" }
        = ({ handled := false }, mem0 "farewell" [])
    ∧ (processActionStep env0 (mem0 "farewell" []) "chat1" (sess0 "farewell" [])
          { action := "noop", nextStep := "farewell" }).1.response
        = some ("[Action: " ++ "noop" ++ "]" ++ "\n\n" ++ getMessage env0 "goodbye") := by
  exact terminal_step_behavior env0 (mem0 "farewell" []) "chat1"
    { type := MsgType.text, content := "x" } (sess0 "farewell" [])
    { messageKey := some "goodbye" }
    env0 (mem0 "farewell" []) "chat1" (sess0 "farewell" [])
    { action := "noop", nextStep := "farewell" } "goodbye"
    rfl (by decide) (by decide) (by decide) (by decide) (by decide) (by decide)

theorem vamp_name (env : Env) (ex : ProductData) (nf : List (String × String)) :
    (validateAndMergeProduct env ex nf).1.name
      = match alGet nf "name" with
        | none => ex.name
        | some v => if v.length > 0 then some v else ex.name := by
  unfold validateAndMergeProduct
  rcases alGet nf "name" with _ | nv0 <;>
    rcases alGet nf "price" with _ | pv0 <;>
      rcases alGet nf "stock" with _ | sv0 <;>
        rcases alGet nf "description" with _ | dv0 <;>
          dsimp only <;> (try split_ifs) <;> rfl

theorem vamp_price (env : Env) (ex : ProductData) (nf : List (String × String)) :
    (validateAndMergeProduct env ex nf).1.price
      = match alGet nf "price" with
        | none => ex.price
        | some v =>
          if (!jsIsNaN (jsParseFloat v) && jsGtZeroB (jsParseFloat v)) = true then
            some (jsParseFloat v)
          else ex.price := by
  unfold validateAndMergeProduct
  rcases alGet nf "name" with _ | nv0 <;>
    rcases alGet nf "price" with _ | pv0 <;>
      rcases alGet nf "stock" with _ | sv0 <;>
        rcases alGet nf "description" with _ | dv0 <;>
          dsimp only <;> (try split_ifs) <;> rfl

theorem vamp_stock (env : Env) (ex : ProductData) (nf : List (String × String)) :
    (validateAndMergeProduct env ex nf).1.stock
      = match alGet nf "stock" with
        | none => ex.stock
        | some v =>
          if (!jsIsNaN (jsParseInt v) && jsGeZeroB (jsParseInt v)
              && jsIsIntegerB (jsParseInt v)) = true then
            some (jsParseInt v)
          else ex.stock := by
  unfold validateAndMergeProduct
  rcases alGet nf "name" with _ | nv0 <;>
    rcases alGet nf "price" with _ | pv0 <;>
      rcases alGet nf "stock" with _ | sv0 <;>
        rcases alGet nf "description" with _ | dv0 <;>
          dsimp only <;> (try split_ifs) <;> rfl

theorem vamp_description (env : Env) (ex : ProductData) (nf : List (String × String)) :
    (validateAndMergeProduct env ex nf).1.description
      = match alGet nf "description" with
        | none => ex.description
        | some v => some v := by
  unfold validateAndMergeProduct
  rcases alGet nf "name" with _ | nv0 <;>
    rcases alGet nf "price" with _ | pv0 <;>
      rcases alGet nf "stock" with _ | sv0 <;>
        rcases alGet nf "description" with _ | dv0 <;>
          dsimp only <;> (try split_ifs) <;> rfl

theorem vamp_sku (env : Env) (ex : ProductData) (nf : List (String × String)) :
    (validateAndMergeProduct env ex nf).1.sku = ex.sku := by
  unfold validateAndMergeProduct
  rcases alGet nf "name" with _ | nv0 <;>
    rcases alGet nf "price" with _ | pv0 <;>
      rcases alGet nf "stock" with _ | sv0 <;>
        rcases alGet nf "description" with _ | dv0 <;>
          dsimp only <;> (try split_ifs) <;> rfl

theorem vamp_errors (env : Env) (ex : ProductData) (nf : List (String × String)) :
    (validateAndMergeProduct env ex nf).2
      = (match alGet nf "name" with
         | none => []
         | some v =>
           if v.length > 0 then [] else [getMessage env "validation_error_name"]) ++
        (match alGet nf "price" with
         | none => []
         | some v =>
           if (!jsIsNaN (jsParseFloat v) && jsGtZeroB (jsParseFloat v)) = true then []
           else [getMessage env "validation_error_price"]) ++
        (match alGet nf "stock" with
         | none => []
         | some v =>
           if (!jsIsNaN (jsParseInt v) && jsGeZeroB (jsParseInt v)
               && jsIsIntegerB (jsParseInt v)) = true then []
           else [getMessage env "validation_error_stock"]) := by
  unfold validateAndMergeProduct
  rcases alGet nf "name" with _ | nv0 <;>
    rcases alGet nf "price" with _ | pv0 <;>
      rcases alGet nf "stock" with _ | sv0 <;>
        rcases alGet nf "description" with _ | dv0 <;>
          dsimp only <;> (try split_ifs) <;> simp

/-- C3: `validateAndMergeProduct` never clears a previously accepted field
by omission — each field of the result equals the existing one whenever
`newFields` does not supply it (and `sku` is never touched); a supplied
invalid value leaves the prior field untouched and appends the field's
error message; and in the two-step scenario (valid name, then invalid
price with valid quantity) the result has name and quantity set, price
unset, and exactly the one price error. -/
theorem merge_monotonic (env : Env) (ex : ProductData) (nf : List (String × String))
    (nv pv sv : String) :
    (alGet nf "name" = none → (validateAndMergeProduct env ex nf).1.name = ex.name)
    ∧ (alGet nf "price" = none → (validateAndMergeProduct env ex nf).1.price = ex.price)
    ∧ (alGet nf "stock" = none → (validateAndMergeProduct env ex nf).1.stock = ex.stock)
    ∧ (alGet nf "description" = none →
        (validateAndMergeProduct env ex nf).1.description = ex.description)
    ∧ (validateAndMergeProduct env ex nf).1.sku = ex.sku
    ∧ (alGet nf "name" = some nv → nv.length = 0 →
        (validateAndMergeProduct env ex nf).1.name = ex.name
        ∧ getMessage env "validation_error_name" ∈ (validateAndMergeProduct env ex nf).2)
    ∧ (alGet nf "price" = some pv →
        (!jsIsNaN (jsParseFloat pv) && jsGtZeroB (jsParseFloat pv)) = false →
        (validateAndMergeProduct env ex nf).1.price = ex.price
        ∧ getMessage env "validation_error_price" ∈ (validateAndMergeProduct env ex nf).2)
    ∧ (alGet nf "stock" = some sv →
        (!jsIsNaN (jsParseInt sv) && jsGeZeroB (jsParseInt sv)
          && jsIsIntegerB (jsParseInt sv)) = false →
        (validateAndMergeProduct env ex nf).1.stock = ex.stock
        ∧ getMessage env "validation_error_stock" ∈ (validateAndMergeProduct env ex nf).2)
    ∧ ((validateAndMergeProduct env
          (validateAndMergeProduct env {} [("name", "Widget")]).1
          [("price", "abc"), ("stock", "5")]).1.name = some "Widget"
      ∧ (validateAndMergeProduct env
          (validateAndMergeProduct env {} [("name", "Widget")]).1
          [("price", "abc"), ("stock", "5")]).1.stock = some (jsInt 5)
      ∧ (validateAndMergeProduct env
          (validateAndMergeProduct env {} [("name", "Widget")]).1
          [("price", "abc"), ("stock", "5")]).1.price = none
      ∧ (validateAndMergeProduct env
          (validateAndMergeProduct env {} [("name", "Widget")]).1
          [("price", "abc"), ("stock", "5")]).2
          = [getMessage env "validation_error_price"]) := by
  refine ⟨?_, ?_, ?_, ?_, vamp_sku env ex nf, ?_, ?_, ?_, rfl, rfl, rfl, rfl⟩
  · intro h
    rw [vamp_name, h]
  · intro h
    rw [vamp_price, h]
  · intro h
    rw [vamp_stock, h]
  · intro h
    rw [vamp_description, h]
  · intro h h0
    constructor
    · rw [vamp_name, h]
      simp [h0]
    · rw [vamp_errors, h]
      simp [h0]
  · intro h hbad
    constructor
    · rw [vamp_price, h]
      simp [hbad]
    · rw [vamp_errors, h]
      simp [hbad]
  · intro h hbad
    constructor
    · rw [vamp_stock, h]
      simp [hbad]
    · rw [vamp_errors, h]
      simp [hbad]

/-- Concrete instance of C3: a prior price `7` survives the invalid supplied
price `"xyz"`, which only appends the price error; and the two-step
scenario of the spec, at the fixture messages. -/
theorem merge_monotonic_witness :
    alGet [("price", "xyz")] "price" = some "xyz"
    ∧ (validateAndMergeProduct env0 { price := some (jsInt 7) } [("price", "xyz")]).1.price
        = some (jsInt 7)
    ∧ getMessage env0 "validation_error_price"
        ∈ (validateAndMergeProduct env0 { price := some (jsInt 7) } [("price", "xyz")]).2
    ∧ (validateAndMergeProduct env0
          (validateAndMergeProduct env0 {} [("name", "Widget")]).1
          [("price", "abc"), ("stock", "5")]).2
        = [getMessage env0 "validation_error_price"] := by
  have h := merge_monotonic env0 { price := some (jsInt 7) } [("price", "xyz")] "" "xyz" ""
  have hp := h.2.2.2.2.2.2.1 rfl (by decide)
  exact ⟨rfl, hp.1, hp.2, h.2.2.2.2.2.2.2.2.2.2.2⟩

/-- C4 (counterexample): the supplied quantity string `"3.7"` is not a
non-negative integer, yet `validateAndMergeProduct` accepts it (as the
prefix-parsed value 3) with no error; likewise `"Infinity"` is accepted as
a price although it is not finite. -/
theorem field_validation_counterexample :
    (validateAndMergeProduct env0 {} [("stock", "3.7")]).1.stock = some (jsInt 3)
    ∧ (validateAndMergeProduct env0 {} [("stock", "3.7")]).2 = []
    ∧ (validateAndMergeProduct env0 {} [("price", "Infinity")]).1.price
        = some (JSNum.inf false) := by
  decide

/-- C4 (amended): each supplied field is validated against the JS
prefix-parse of its value — name: non-empty string; price: `parseFloat`
yields a non-`NaN` value `> 0` (which admits `Infinity` and strings with a
numeric prefix such as `"9.99abc"`); quantity: `parseInt(..., 10)` yields a
non-`NaN`, non-negative integer (which admits strings such as `"3.7"`,
accepted as `3`) — the field is updated exactly when the rule holds,
otherwise the prior value is kept and the field's error message is
appended; a supplied description is always accepted. -/
theorem field_validation_rules (env : Env) (ex : ProductData)
    (nf : List (String × String)) (nv pv sv dv : String) :
    (alGet nf "name" = some nv →
        (validateAndMergeProduct env ex nf).1.name
          = (if nv.length > 0 then some nv else ex.name)
        ∧ (nv.length = 0 →
            getMessage env "validation_error_name" ∈ (validateAndMergeProduct env ex nf).2))
    ∧ (alGet nf "price" = some pv →
        (validateAndMergeProduct env ex nf).1.price
          = (if (!jsIsNaN (jsParseFloat pv) && jsGtZeroB (jsParseFloat pv)) = true
              then some (jsParseFloat pv) else ex.price)
        ∧ ((!jsIsNaN (jsParseFloat pv) && jsGtZeroB (jsParseFloat pv)) = false →
            getMessage env "validation_error_price" ∈ (validateAndMergeProduct env ex nf).2))
    ∧ (alGet nf "stock" = some sv →
        (validateAndMergeProduct env ex nf).1.stock
          = (if (!jsIsNaN (jsParseInt sv) && jsGeZeroB (jsParseInt sv)
                  && jsIsIntegerB (jsParseInt sv)) = true
              then some (jsParseInt sv) else ex.stock)
        ∧ ((!jsIsNaN (jsParseInt sv) && jsGeZeroB (jsParseInt sv)
              && jsIsIntegerB (jsParseInt sv)) = false →
            getMessage env "validation_error_stock" ∈ (validateAndMergeProduct env ex nf).2))
    ∧ (alGet nf "description" = some dv →
        (validateAndMergeProduct env ex nf).1.description = some dv) := by
  refine ⟨?_, ?_, ?_, ?_⟩
  · intro h
    refine ⟨?_, ?_⟩
    · rw [vamp_name, h]
    · intro h0
      rw [vamp_errors, h]
      simp [h0]
  · intro h
    refine ⟨?_, ?_⟩
    · rw [vamp_price, h]
    · intro hbad
      rw [vamp_errors, h]
      simp [hbad]
  · intro h
    refine ⟨?_, ?_⟩
    · rw [vamp_stock, h]
    · intro hbad
      rw [vamp_errors, h]
      simp [hbad]
  · intro h
    rw [vamp_description, h]

/-- Concrete instance of C4 as amended: `"3.7"` passes the quantity rule
(its prefix parse is the non-negative integer 3) and is stored as `3`. -/
theorem field_validation_rules_witness :
    alGet [("stock", "3.7")] "stock" = some "3.7"
    ∧ (validateAndMergeProduct env0 {} [("stock", "3.7")]).1.stock = some (jsInt 3) := by
  have h := (field_validation_rules env0 {} [("stock", "3.7")] "" "" "3.7" "").2.2.1 rfl
  exact ⟨rfl, h.1.trans (by decide)⟩

end Shop

